import Mathlib

/-!
Verification of the EYE repository's email-analysis and risk-scoring core.

The Python sources are shallowly embedded:
* machine floats are modelled by exact rationals (`ℚ`);
* Python's `x in s` substring test is `pyIn`, `str.lower()` is `pyLower`;
* `re.search(pattern, content).group(1)` is an oracle parameter (`ReOracle`),
  since a full regex engine is out of scope; every theorem about code that
  calls `re.search` is proved for all oracles, or at a concretely
  instantiated oracle whose answers agree with Python's `re` on the inputs used;
* fallible code (Python exceptions) returns `Option`/`Except`.
-/

set_option maxRecDepth 1000000

/-- Bool test that the first char list is a prefix of the second
(helper for the substring test). -/
def listStarts : List Char → List Char → Bool
  | [], _ => true
  | _ :: _, [] => false
  | a :: as, b :: bs => (a == b) && listStarts as bs

/-- Bool test that the first char list occurs contiguously inside the second. -/
def listSub (n : List Char) : List Char → Bool
  | [] => listStarts n []
  | c :: rest => listStarts n (c :: rest) || listSub n rest

/-- Python's substring containment `needle in haystack` on `str`. -/
def pyIn (needle haystack : String) : Bool :=
  listSub needle.data haystack.data

/-- Python's `str.lower()` (ASCII case folding, as in all strings this code handles). -/
def pyLower (s : String) : String :=
  String.mk (s.data.map Char.toLower)

/-! ### src/utils/computation.py -/

/-- `computation.calculate_device_score` (lines 1-11): maps the categorical
device-risk level to a number; any other input falls off the `elif` chain and
returns Python `None`, modelled as `none`. -/
def calculate_device_score (device_score : String) : Option ℚ :=
  if device_score = "VERY_HIGH" then some 1000
  else if device_score = "HIGH" then some 750
  else if device_score = "MEDIUM" then some 500
  else if device_score = "LOW" then some 300
  else none

/-- `computation.calculate_input_validation_score` (lines 14-25): 100 if the
claimed identity is not a case-insensitive substring of the alternate-data
identity, else 0.  (The source first replaces a list argument by its element 0;
the claims only apply it to strings, so the embedding takes the strings.) -/
def calculate_input_validation_score (identity1 identity2 : String) : ℚ :=
  if pyIn (pyLower identity1) (pyLower identity2) = false then 100 else 0

/-- `computation.find_needle_in_haystack_contains` (lines 57-61). -/
def find_needle_in_haystack_contains (needle : String) (haystack : List String) : Bool :=
  haystack.any (fun val => pyIn (pyLower needle) (pyLower val))

/-- The `vi_names_list` local of `calculate_network_validation_score`. -/
def vi_names_list : List String := ["vi", "vodafone", "idea"]

/-- `computation.calculate_network_validation_score` (lines 28-41): if the
lowercased alternate-data carrier is one of vi/vodafone/idea, the loop adds 100
for each of those three names found in the device list; otherwise a single
containment test scores 100. -/
def calculate_network_validation_score
    (network_from_device : List String) (network_from_alt_data : String) : ℚ :=
  if vi_names_list.contains (pyLower network_from_alt_data) then
    vi_names_list.foldl
      (fun score network =>
        if find_needle_in_haystack_contains network network_from_device then score + 100
        else score) 0
  else
    if find_needle_in_haystack_contains (pyLower network_from_alt_data) network_from_device
    then 100 else 0

/-- `computation.calculate_app_profile_score` (lines 44-54): for each distinct
account app (Python `set`) not found in the downloaded list, add
`1000 / len(account_set)`. -/
def calculate_app_profile_score (downloaded_apps account_apps : List String) : ℚ :=
  account_apps.dedup.foldl
    (fun score app =>
      if find_needle_in_haystack_contains app downloaded_apps = false then
        score + 1000 / (account_apps.dedup.length : ℚ)
      else score) 0

/-- The result dictionary of `calculate_final_score`. -/
structure FinalScore where
  final_score : ℚ
  risk_score : ℚ
  device_risk_score : ℚ
  input_validation_score : ℚ
  network_validation_score : ℚ
  app_score : ℚ
deriving DecidableEq

/-- `computation.calculate_final_score` (lines 64-106): fixed-weight linear
combination of the component scores.  When the device-risk level is not
recognised, `calculate_device_score` returns `None` and the Python
multiplication `0.2 * None` raises `TypeError`; the embedding returns `none`. -/
def calculate_final_score (alternate_risk_score : ℚ) (device_risk_level : String)
    (name_from_input name_from_alt_data : String)
    (network_from_device : List String) (network_from_alt_data : String)
    (downloaded_apps account_apps : List String) : Option FinalScore :=
  match calculate_device_score device_risk_level with
  | none => none
  | some device_score =>
    let input_validation := calculate_input_validation_score name_from_input name_from_alt_data
    let network_validation :=
      calculate_network_validation_score network_from_device network_from_alt_data
    let app_profile_score := calculate_app_profile_score downloaded_apps account_apps
    some
      { final_score := 0.5 * alternate_risk_score + 0.2 * device_score
          + 0.05 * input_validation + 0.10 * network_validation + 0.15 * app_profile_score
        risk_score := alternate_risk_score
        device_risk_score := device_score
        input_validation_score := input_validation
        network_validation_score := network_validation
        app_score := app_profile_score }

/-! ### src/lib/email_classifier_v2.py (`EmailClassifier`) -/

/-- `EmailClassifier._init_categories` (v2, lines 108-148), in dict insertion
order: sender routing iterates these category/company lists in this order. -/
def v2_categories : List (String × List String) :=
  [("credit_cards",
     ["hdfc", "icici", "sbi", "axis", "kotak", "yes", "idfc", "indusind", "rbl",
      "federal", "dcb", "bandhan", "tata", "au", "standard_chartered", "hsbc",
      "dbs", "slice", "uni", "onecard", "amex", "citi"]),
   ("food_dining", ["zomato", "swiggy"]),
   ("travel_transport", ["uber", "ola", "rapido"]),
   ("shopping_retail",
     ["amazon", "flipkart", "myntra", "ajio", "bigbasket", "dmart", "tata cliq",
      "nykaa", "meesho"]),
   ("financial", ["zerodha", "groww", "upstox"])]

/-- v2 `transaction_keywords["credit_card_transaction"]` (lines 151-161). -/
def v2_txn_keywords : List String :=
  ["transaction alert", "spent", "debited", "charged", "purchase",
   "has been used", "for using", "transaction of"]

/-- v2 `transaction_keywords["credit_card_payment"]` (lines 162-170). -/
def v2_payment_keywords : List String :=
  ["payment received", "payment confirmed", "thank you for your payment",
   "payment credited", "amount credited", "payment processed", "payment successful"]

/-- The sender-routing loop of `EmailClassifier._get_email_type` (v2 lines
207-223): the first category whose company list has a member contained in the
sender wins; `credit_cards` is refined by payment then transaction keywords. -/
def v2_sender_route : List (String × List String) → String → String → Option String
  | [], _, _ => none
  | (cat, companies) :: rest, content, sender =>
    if companies.any (fun company => pyIn company sender) then
      some
        (if cat = "credit_cards" then
          if v2_payment_keywords.any (fun k => pyIn k (pyLower content)) then
            "credit_card_payment"
          else if v2_txn_keywords.any (fun k => pyIn k (pyLower content)) then
            "credit_card_transaction"
          else cat
        else cat)
    else v2_sender_route rest content sender

/-- `EmailClassifier._get_email_type` (v2, lines 203-238); the sender is
already lowercased by `classify_email` before this is called. -/
def v2_get_email_type (content sender : String) : String :=
  match v2_sender_route v2_categories content sender with
  | some t => t
  | none =>
    if v2_txn_keywords.any (fun k => pyIn k (pyLower content)) then "credit_card_transaction"
    else if v2_payment_keywords.any (fun k => pyIn k (pyLower content)) then
      "credit_card_payment"
    else "unknown"

/-! ### src/lib/email_classifier.py (`EmailAnalyzer`, "v1") — static tables

The regex pattern strings below are copied verbatim from `_init_patterns`;
they serve as keys for the `re.search` oracle.  Unused table entries
(statement/due-date/limit patterns, `upi_id`, `status`) are not needed by any
claim and are omitted. -/

/-- `patterns["credit_card"]["card_numbers"]` (lines 20-26). -/
def card_number_patterns : List String :=
  ["(?:Credit\\s+Card|Card)(?:\\s+ending(?:\\s+in)?|(?:\\s+no\\.?|number)?)\\s+(?:in\\s+)?(?:[Xx*]+|XX)(\\d{4})",
   "(?:Credit\\s+Card|Card)\\s+XX(\\d{4})",
   "Card\\s+ending\\s+(?:in\\s+)?(\\d{4})",
   "(?:Credit\\s+Card|Card)\\s+(?:ending\\s+)?(?:[Xx*]+|XX)(\\d{4})",
   "(?:Credit\\s+Card|Card)\\s+account\\s+(?:[Xx*]+|XX)(\\d{4})"]

/-- `patterns["transaction"]["amount_patterns"]["credit_card"]` (lines 42-45). -/
def amount_patterns_credit_card : List String :=
  ["(?:transaction\\s+of|charged|used\\s+for)\\s+(?:INR|Rs\\.?|₹)\\s*([\\d,]+(?:\\.\\d{2})?)",
   "(?:INR|Rs\\.?|₹)\\s*([\\d,]+(?:\\.\\d{2})?)\\s+(?:at|@)"]

/-- `amount_patterns["food"]` (lines 46-50). -/
def amount_patterns_food : List String :=
  ["(?:Amount|Total):\\s*(?:INR|Rs\\.?|₹)\\s*([\\d,]+(?:\\.\\d{2})?)",
   "Amount\\s+paid:\\s*(?:INR|Rs\\.?|₹)\\s*([\\d,]+(?:\\.\\d{2})?)",
   "Total:\\s*(?:INR|Rs\\.?|₹)\\s*([\\d,]+(?:\\.\\d{2})?)"]

/-- `amount_patterns["transport"]` (lines 51-55). -/
def amount_patterns_transport : List String :=
  ["(?:Fare|Amount)(?:\\s+paid)?:\\s*(?:INR|Rs\\.?|₹)\\s*([\\d,]+(?:\\.\\d{2})?)",
   "(?:Fare|Amount)(?:\\s+estimate)?:\\s*(?:INR|Rs\\.?|₹)\\s*([\\d,]+(?:\\.\\d{2})?)",
   "(?:Estimated\\s+)?[Ff]are:\\s*(?:INR|Rs\\.?|₹)\\s*([\\d,]+(?:\\.\\d{2})?)"]

/-- `amount_patterns["shopping"]` (lines 56-59). -/
def amount_patterns_shopping : List String :=
  ["Total(?:\\s+Amount)?:\\s*(?:INR|Rs\\.?|₹)\\s*([\\d,]+(?:\\.\\d{2})?)",
   "Amount:\\s*(?:INR|Rs\\.?|₹)\\s*([\\d,]+(?:\\.\\d{2})?)"]

/-- `amount_patterns["financial"]` (lines 60-64). -/
def amount_patterns_financial : List String :=
  ["Total\\s+(?:investment|value|amount):\\s*(?:INR|Rs\\.?|₹)\\s*([\\d,]+(?:\\.\\d{2})?)",
   "(?:INR|Rs\\.?|₹)\\s*([\\d,]+(?:\\.\\d{2})?)\\s+invested",
   "Amount:\\s*(?:INR|Rs\\.?|₹)\\s*([\\d,]+(?:\\.\\d{2})?)\\s+redeemed"]

/-- `amount_patterns.get(email_type, amount_patterns["credit_card"])` as used by
`_extract_amount` (lines 561-563). -/
def amount_patterns_for (email_type : String) : List String :=
  if email_type = "credit_card" then amount_patterns_credit_card
  else if email_type = "food" then amount_patterns_food
  else if email_type = "transport" then amount_patterns_transport
  else if email_type = "shopping" then amount_patterns_shopping
  else if email_type = "financial" then amount_patterns_financial
  else amount_patterns_credit_card

/-- `merchant_patterns["credit_card"]` (lines 68-72). -/
def merchant_patterns_credit_card : List String :=
  ["Info:\\s+([A-Za-z0-9\\s&\\-\\.]+?)(?:\\.|$)",
   "at\\s+([A-Za-z0-9\\s&\\-\\.]+?)\\s+on\\s+\\d{2}-\\d{2}-\\d{4}",
   "at\\s+([A-Za-z0-9\\s&\\-\\.]+?)\\.\\s+The\\s+Available"]

/-- `merchant_patterns["food"]` (lines 73-77). -/
def merchant_patterns_food : List String :=
  ["from\\s+([A-Za-z0-9\\s&\\-\\\x27\\.]+?)(?:\\sis\\s+confirmed|\\sis\\s+ready|\\sis\\s+on|\\!|\\.|$)",
   "Order\\s+(?:Confirmed|Ready):\\s+([A-Za-z0-9\\s&\\-\\\x27\\.]+?)\\s+\\(Order\\s+#",
   "order\\s+from\\s+([A-Za-z0-9\\s&\\-\\\x27\\.]+?)\\s+is"]

/-- `merchant_patterns["transport"]` (lines 78-82). -/
def merchant_patterns_transport : List String :=
  ["^([A-Za-z]+(?:\\s+(?:Prime|Mini|Auto|Outstation|XL|Premier|bike))?\\s+(?:booking|ride))",
   "^Your\\s+([A-Za-z]+(?:\\s+(?:Prime|Mini|Auto|Outstation|XL|Premier|bike))?\\s+(?:booking|ride))",
   "([A-Za-z]+(?:\\s+(?:Prime|Mini|Auto|Outstation|XL|Premier)))\\s+(?:confirmed|Ride)"]

/-- `merchant_patterns["shopping"]` (lines 83-87). -/
def merchant_patterns_shopping : List String :=
  ["^([A-Za-z]+(?:\\.[a-z]+)?)\\s+order\\s+(?:#|ID:)\\s*[A-Z0-9\\-]+",
   "Order\\s+(?:Confirmation|confirmed)\\s+from\\s+([A-Za-z\\s]+)!",
   "([A-Za-z]+)\\s+order\\s+#[A-Z0-9\\-]+"]

/-- `merchant_patterns.get(email_type, merchant_patterns["credit_card"])` as
used by `_extract_merchant` (lines 577-579). -/
def merchant_patterns_for (email_type : String) : List String :=
  if email_type = "credit_card" then merchant_patterns_credit_card
  else if email_type = "food" then merchant_patterns_food
  else if email_type = "transport" then merchant_patterns_transport
  else if email_type = "shopping" then merchant_patterns_shopping
  else merchant_patterns_credit_card

/-- `patterns["transaction"]["reference"]` (line 90). -/
def reference_pattern : String :=
  "(?:ref\\.?(?:erence)?|txn|transaction)\\s*(?:no\\.?|id|number)[:\\s]*([A-Z0-9]+)"

/-- `categories["credit_cards"]` (v1, lines 97-130; note `amex` and `citi`
appear twice, as in the source). -/
def v1_credit_cards : List String :=
  ["hdfc", "icici", "sbi", "axis", "kotak", "yes", "idfc", "indusind", "rbl",
   "federal", "dcb", "bandhan", "tata", "au", "pnb", "boi", "canara", "union",
   "bob", "indian", "central", "ubi", "citi", "amex", "standard_chartered",
   "hsbc", "dbs", "slice", "uni", "onecard", "amex", "citi"]

/-- `categories["food_dining"]` (v1, lines 131-147). -/
def v1_food_dining : List String :=
  ["zomato", "swiggy", "uber eats", "restaurant", "food", "cafe", "dhaba",
   "kitchen", "eatery", "biryani", "pizza", "bakery", "sweet", "catering",
   "ola store"]

/-- `categories["travel_transport"]` (v1, lines 148-170). -/
def v1_travel_transport : List String :=
  ["makemytrip", "goibibo", "irctc", "indigo", "spicejet", "vistara", "airasia",
   "air india", "uber", "ola", "olacab", "ola cab", "rapido", "redbus",
   "railway", "airways", "flight", "bus", "cab", "auto", "metro"]

/-- `categories["shopping_retail"]` (v1, lines 171-186). -/
def v1_shopping_retail : List String :=
  ["amazon", "flipkart", "myntra", "ajio", "bigbasket", "grofers", "dmart",
   "reliance", "trends", "lifestyle", "shoppers stop", "tata cliq", "nykaa",
   "meesho"]

/-- `categories["financial"]` (v1, line 187). -/
def v1_financial : List String := ["zerodha", "groww", "upstox"]

/-- `self.categories` (v1) in dict insertion order, as iterated by
`_categorize_merchant`. -/
def v1_categories : List (String × List String) :=
  [("credit_cards", v1_credit_cards), ("food_dining", v1_food_dining),
   ("travel_transport", v1_travel_transport), ("shopping_retail", v1_shopping_retail),
   ("financial", v1_financial)]

/-- v1 `transaction_keywords["credit_card_transaction"]` (lines 193-203). -/
def v1_txn_keywords : List String :=
  ["transaction alert", "spent", "debited", "charged", "purchase", "debit",
   "has been used", "for using", "transaction of"]

/-- v1 `transaction_keywords["credit_card_payment"]` (lines 204-212). -/
def v1_payment_keywords : List String :=
  ["payment received", "payment confirmed", "thank you for your payment",
   "payment credited", "amount credited", "payment processed", "payment successful"]

/-- `promotional_keywords` (lines 216-251). -/
def promotional_keywords : List String :=
  ["offer", "reward", "exclusive", "discount", "save", "deal", "cashback",
   "promotion", "special", "limited time", "apply now", "pre-approved",
   "upgrade your card", "voucher", "gift", "benefit", "redeem", "LPA", "CTC",
   "dream", "tickets", "hiring", "loan", "opportunity", "bonus", "free",
   "earn", "points", "miles", "launch", "new", "introducing", "privilege",
   "membership"]

/-- `payment_confirmation_keywords` (lines 254-275). -/
def payment_confirmation_keywords : List String :=
  ["payment received", "payment confirmed", "thank you for your payment",
   "payment has been posted", "payment processed", "payment successful",
   "payment credited", "amount credited", "credit card payment received",
   "we\x27ve received your payment", "payment acknowledged",
   "payment successfully posted", "bill payment confirmed",
   "card payment successful", "EMI payment received", "auto-payment successful",
   "standing instruction executed", "auto debit successful",
   "credit posted to your account", "your account has been credited"]

/-- `issuer_variations` of `_identify_issuer` (lines 646-669), in dict
insertion order: the first issuer with a matching variation wins. -/
def issuer_variations : List (String × List String) :=
  [("hdfc", ["hdfc", "hdfc bank", "hdfcbank"]),
   ("icici", ["icici", "icici bank", "icicibank"]),
   ("sbi", ["sbi", "sbi card", "sbicard", "state bank"]),
   ("axis", ["axis", "axis bank", "axisbank"]),
   ("kotak", ["kotak", "kotak bank", "kotakbank"]),
   ("yes", ["yes", "yes bank", "yesbank"]),
   ("idfc", ["idfc", "idfc bank", "idfcbank", "idfc first"]),
   ("indusind", ["indusind", "indusind bank", "indusindbank"]),
   ("rbl", ["rbl", "rbl bank", "rblbank"]),
   ("federal", ["federal", "federal bank", "federalbank"]),
   ("dcb", ["dcb", "dcb bank", "dcbbank"]),
   ("bandhan", ["bandhan", "bandhan bank", "bandhanbank"]),
   ("tata", ["tata", "tata card", "tata neu"]),
   ("au", ["au", "au bank", "au small finance", "aubank"]),
   ("standard_chartered", ["standard chartered", "sc bank", "scb", "sc"]),
   ("hsbc", ["hsbc", "hsbc bank", "hsbcbank"]),
   ("dbs", ["dbs", "dbs bank", "dbsbank"]),
   ("citi", ["citi", "citibank", "citi bank"]),
   ("amex", ["amex", "american express"]),
   ("slice", ["slice", "sliceit"]),
   ("uni", ["uni", "uni cards", "unicards"]),
   ("onecard", ["onecard", "one card", "ftc"])]

/-! ### String helpers used by the v1 extractor -/

/-- Whitespace as recognised by Python's default `str.strip()` / `\s`. -/
def isPySpace (c : Char) : Bool :=
  c = ' ' || c = '\t' || c = '\n' || c = '\r' || c = '\x0b' || c = '\x0c'

/-- Python `str.strip()`. -/
def pyStrip (s : String) : String :=
  String.mk (((s.data.dropWhile isPySpace).reverse.dropWhile isPySpace).reverse)

/-- Python `str.strip(chars)` for an explicit strip set. -/
def pyStripChars (cs : List Char) (s : String) : String :=
  String.mk (((s.data.dropWhile (fun c => cs.contains c)).reverse.dropWhile
    (fun c => cs.contains c)).reverse)

/-- `re.sub(r"\s+", " ", ·)` on a char list: collapse whitespace runs to one space. -/
def collapseWS : List Char → List Char
  | [] => []
  | [c] => if isPySpace c then [' '] else [c]
  | c1 :: c2 :: rest =>
    if isPySpace c1 && isPySpace c2 then collapseWS (c2 :: rest)
    else (if isPySpace c1 then ' ' else c1) :: collapseWS (c2 :: rest)

/-- `str.replace(",", "")`. -/
def removeCommas (s : String) : String :=
  String.mk (s.data.filter (fun c => c ≠ ','))

/-- Decimal digit-string value. -/
def digitsToNat (cs : List Char) : ℕ :=
  cs.foldl (fun n c => 10 * n + (c.toNat - 48)) 0

/-- Split a char list at its first `'.'`: the part before and, when a dot is
present, the part after. -/
def breakDot : List Char → List Char × Option (List Char)
  | [] => ([], none)
  | c :: rest =>
    if c = '.' then ([], some rest)
    else
      let p := breakDot rest
      (c :: p.1, p.2)

/-- Python `float(s)` restricted to the decimal forms this pipeline produces:
an optional sign, digits, and an optional single fractional part.  Exponents,
underscores, surrounding whitespace and inf/nan are treated as `ValueError`
(`none`), which is sound for the `[\d,]+(\.\d{2})?` capture groups fed to it. -/
def parsePyFloatUnsigned (cs : List Char) : Option ℚ :=
  match breakDot cs with
  | (ip, none) =>
    if ip ≠ [] ∧ ip.all Char.isDigit then some ((digitsToNat ip : ℚ)) else none
  | (ip, some fp) =>
    if fp.contains '.' then none
    else if (ip ≠ [] ∨ fp ≠ []) ∧ ip.all Char.isDigit ∧ fp.all Char.isDigit then
      some ((digitsToNat ip : ℚ) + (digitsToNat fp : ℚ) / (10 : ℚ) ^ fp.length)
    else none

/-- Python `float(s)` (see `parsePyFloatUnsigned`). -/
def parsePyFloat (s : String) : Option ℚ :=
  match s.data with
  | '-' :: rest => (parsePyFloatUnsigned rest).map (fun q => -q)
  | '+' :: rest => parsePyFloatUnsigned rest
  | cs => parsePyFloatUnsigned cs

/-- The `re.search(pattern, content)` results, abstracted: `searchI` is
`re.search(p, c, re.IGNORECASE).group(1)` (used by `_extract_pattern_match`),
`search` is the flagless `re.search(p, c).group(1)` (used by `_extract_amount`
and `_extract_merchant`); `none` means no match. -/
structure ReOracle where
  searchI : String → String → Option String
  search : String → String → Option String

/-! ### src/lib/email_classifier.py — classification and extraction -/

/-- `EmailAnalyzer._is_credit_card_promotional` (lines 277-304): promotional
keyword present and neither transaction-alert nor payment-confirmation
keywords present. -/
def is_credit_card_promotional (content : String) : Bool :=
  if promotional_keywords.any (fun k => pyIn (pyLower k) (pyLower content)) then
    if v1_txn_keywords.any (fun k => pyIn (pyLower k) (pyLower content)) then false
    else if payment_confirmation_keywords.any
        (fun k => pyIn (pyLower k) (pyLower content)) then false
    else true
  else false

/-- `EmailAnalyzer._get_transaction_type` (lines 591-632): sender-based routing
first (credit-card senders refined only into payment vs generic
`"credit_card"`), then content-based fallback. -/
def get_transaction_type (content sender : String) : String :=
  if v1_credit_cards.any (fun bank => pyIn bank (pyLower sender)) then
    if v1_payment_keywords.any (fun k => pyIn k (pyLower content)) then
      "credit_card_payment"
    else "credit_card"
  else if v1_food_dining.any (fun f => pyIn f (pyLower sender)) then "food"
  else if v1_travel_transport.any (fun t => pyIn t (pyLower sender)) then "transport"
  else if v1_shopping_retail.any (fun s => pyIn s (pyLower sender)) then "shopping"
  else if v1_financial.any (fun f => pyIn f (pyLower sender)) then "financial"
  else if pyIn "credit card" (pyLower content) || pyIn "card ending" (pyLower content) then
    "credit_card"
  else if pyIn "order" (pyLower content)
      && (["food", "meal", "restaurant"].any (fun f => pyIn f (pyLower content))) then
    "food"
  else if ["ride", "trip", "booking"].any (fun t => pyIn t (pyLower content)) then
    "transport"
  else if pyIn "order" (pyLower content)
      && (["delivered", "shipping"].any (fun s => pyIn s (pyLower content))) then
    "shopping"
  else "unknown"

/-- `EmailAnalyzer._identify_issuer` (lines 634-680): first issuer in table
order with a variation contained in the (lowercased) text. -/
def identify_issuer (content : String) : Option String :=
  (issuer_variations.find?
    (fun p => p.2.any (fun v => pyIn v (pyLower content)))).map (fun p => p.1)

/-- `EmailAnalyzer._extract_pattern_match` (lines 346-368): first pattern with
a match wins; the captured group is `.strip()`ed. -/
def extract_pattern_match (o : ReOracle) (content : String) : List String → Option String
  | [] => none
  | p :: ps =>
    match o.searchI p content with
    | some g => some (pyStrip g)
    | none => extract_pattern_match o content ps

/-- The pattern loop of `_extract_amount` (lines 565-573): first pattern whose
match parses (commas stripped) wins; a match whose group fails `float()` is
skipped (`continue`). -/
def extract_amount_go (o : ReOracle) (content : String) : List String → Option ℚ
  | [] => none
  | p :: ps =>
    match o.search p content with
    | none => extract_amount_go o content ps
    | some g =>
      match parsePyFloat (removeCommas g) with
      | some q => some q
      | none => extract_amount_go o content ps

/-- `EmailAnalyzer._extract_amount` (lines 559-573). -/
def extract_amount (o : ReOracle) (content email_type : String) : Option ℚ :=
  extract_amount_go o content (amount_patterns_for email_type)

/-- The merchant-name cleanup of `_extract_merchant` (lines 584-588):
`group(1).strip()`, collapse whitespace, strip `".,!?"`. -/
def clean_merchant (g : String) : String :=
  pyStripChars ['.', ',', '!', '?'] (String.mk (collapseWS (pyStrip g).data))

/-- The pattern loop of `_extract_merchant` (lines 581-589). -/
def extract_merchant_go (o : ReOracle) (content : String) : List String → Option String
  | [] => none
  | p :: ps =>
    match o.search p content with
    | some g => some (clean_merchant g)
    | none => extract_merchant_go o content ps

/-- `EmailAnalyzer._extract_merchant` (lines 575-589). -/
def extract_merchant (o : ReOracle) (content email_type : String) : Option String :=
  extract_merchant_go o content (merchant_patterns_for email_type)

/-- `EmailAnalyzer._categorize_merchant` (lines 1054-1069). -/
def categorize_merchant (merchant transaction_type : String) : String :=
  if transaction_type ≠ "unknown" then transaction_type
  else if merchant = "" ∨ pyLower merchant = "unknown" then "others"
  else
    match v1_categories.find?
        (fun p => p.2.any (fun m => pyIn (pyLower m) (pyLower merchant))) with
    | some p => p.1
    | none => "others"

/-- The Python value found in an email's `date` field: a `str`, a `datetime`
(represented by its `strftime("%Y-%m-%d %H:%M:%S")` rendering), or `None`. -/
inductive PyDate
  | pstr (s : String)
  | pdt (s : String)
  | pnone
deriving DecidableEq

/-- Python truthiness of a date value (`if date:`): `None` and the empty
string are falsy; a datetime is always truthy. -/
def pyDateTruthy : PyDate → Bool
  | .pstr s => !(s == "")
  | .pdt _ => true
  | .pnone => false

/-- The date conversion at `analyze_credit_cards` lines 927-928: a `str`
passes through, a datetime is formatted, and `None.strftime` raises
`AttributeError`. -/
def date_as_str : PyDate → Option String
  | .pstr s => some s
  | .pdt s => some s
  | .pnone => none

/-- A raw email record (`subject`, `content`, `sender`, `date`). -/
structure Email where
  subject : String := ""
  content : String := ""
  sender : String := ""
  date : PyDate := .pnone
deriving DecidableEq

/-- The transaction dict built by `_extract_transaction_details` (lines 1040-1048). -/
structure Txn where
  date : PyDate
  amount : ℚ
  merchant : String
  category : String
  ttype : String
  reference : String
  payment_mode : String
deriving DecidableEq

/-- `EmailAnalyzer._extract_transaction_details` (lines 1007-1052): `None`
when the type is unknown or when the amount is missing or Python-falsy
(`if not amount` also drops an extracted `0.0`); a missing or empty merchant
becomes the sentinel `"unknown"`; `patterns` has no `"payment"` key so the
payment mode is always `"unknown"`; a falsy reference becomes `"N/A"`. -/
def extract_transaction_details (o : ReOracle) (content : String) (date : PyDate)
    (sender : String) : Option Txn :=
  let transaction_type := get_transaction_type content sender
  if transaction_type = "unknown" then none
  else
    match extract_amount o content transaction_type with
    | none => none
    | some amount =>
      if amount = 0 then none
      else
        let merchant :=
          match extract_merchant o content transaction_type with
          | none => "unknown"
          | some m => if m = "" then "unknown" else m
        some
          { date := date, amount := amount, merchant := merchant,
            category := categorize_merchant merchant transaction_type,
            ttype := transaction_type,
            reference :=
              match extract_pattern_match o content [reference_pattern] with
              | none => "N/A"
              | some r => if r = "" then "N/A" else r,
            payment_mode := "unknown" }

/-! ### src/lib/email_classifier.py — credit-card aggregation -/

/-- A credit-card transaction record as appended by `_process_transaction`. -/
structure CTxn where
  date : String
  amount : ℚ
  merchant : String
  ttype : String
deriving DecidableEq

/-- A credit-card payment record (`_process_payment`, lines 1092-1100).  In v1
this dict is never completed: building it reads `self.patterns["payment"]`,
which does not exist, raising `KeyError` first. -/
structure CPayment where
  date : String
  amount : ℚ
  ttype : String
  mode : String
deriving DecidableEq

/-- One `credit_info[card_key]` entry (the defaultdict at lines 912-920). -/
structure CardInfo where
  card_number : Option String := none
  issuer : Option String := none
  transactions : List CTxn := []
  total_spend : ℚ := 0
  payment_history : List CPayment := []
deriving DecidableEq

/-- Association-list lookup (Python dict read). -/
def alookup {α : Type} : List (String × α) → String → Option α
  | [], _ => none
  | (k, v) :: rest, m => if k = m then some v else alookup rest m

/-- Association-list write (Python dict assignment; insertion order kept). -/
def aset {α : Type} (k : String) (v : α) : List (String × α) → List (String × α)
  | [] => [(k, v)]
  | (k', v') :: rest => if k' = k then (k, v) :: rest else (k', v') :: aset k v rest

/-- `EmailAnalyzer._process_transaction` (lines 1071-1086): re-derive the type
from content with an empty sender, extract amount and merchant, and — when the
amount is truthy — append the transaction and add its amount to `total_spend`
in the same step. -/
def process_transaction (o : ReOracle) (content date : String) (card_info : CardInfo) :
    CardInfo :=
  let tt := get_transaction_type content ""
  match extract_amount o content tt with
  | none => card_info
  | some amount =>
    if amount = 0 then card_info
    else
      { card_info with
        transactions := card_info.transactions ++
          [{ date := date, amount := amount,
             merchant :=
               match extract_merchant o content tt with
               | none => "unknown"
               | some m => if m = "" then "unknown" else m,
             ttype := "debit" }],
        total_spend := card_info.total_spend + amount }

/-- `EmailAnalyzer._process_payment` (lines 1088-1101): a falsy amount skips
the append; a truthy amount starts building the payment dict, whose `mode`
field reads `self.patterns["payment"]` — absent in v1's table — so `KeyError`
is raised before anything is appended. -/
def process_payment (o : ReOracle) (content : String) (card_info : CardInfo) :
    Except String CardInfo :=
  match extract_amount o content "credit_card_payment" with
  | none => .ok card_info
  | some amount =>
    if amount = 0 then .ok card_info
    else .error "KeyError"

/-- One iteration of the `analyze_credit_cards` email loop (lines 922-955):
date conversion (raising on `None`), promotional skip, type filter, card-number
extraction (a falsy group is skipped), issuer resolution from the sender, then
the defaultdict entry is created/updated. -/
def credit_step (o : ReOracle) (st : List (String × CardInfo)) (e : Email) :
    Except String (List (String × CardInfo)) :=
  let content := e.subject ++ " " ++ e.content
  let sender := pyLower e.sender
  match date_as_str e.date with
  | none => .error "AttributeError"
  | some date =>
    if is_credit_card_promotional content then .ok st
    else
      let tt := get_transaction_type content sender
      if tt = "credit_card" ∨ tt = "credit_card_payment" then
        match extract_pattern_match o content card_number_patterns with
        | none => .ok st
        | some card_number =>
          if card_number = "" then .ok st
          else
            match identify_issuer sender with
            | none => .ok st
            | some issuer =>
              let card_key := issuer ++ "_" ++ card_number
              let base :=
                { (alookup st card_key).getD {} with
                  issuer := some issuer, card_number := some card_number }
              if tt = "credit_card" then
                .ok (aset card_key (process_transaction o content date base) st)
              else
                (process_payment o content base).map (fun v => aset card_key v st)
      else .ok st

/-- The `analyze_credit_cards` loop from a given state. -/
def analyze_credit_cards_from (o : ReOracle) (st : List (String × CardInfo)) :
    List Email → Except String (List (String × CardInfo))
  | [] => .ok st
  | e :: rest =>
    match credit_step o st e with
    | .error msg => .error msg
    | .ok st' => analyze_credit_cards_from o st' rest

/-- `EmailAnalyzer.analyze_credit_cards` (lines 910-957). -/
def analyze_credit_cards (o : ReOracle) (emails : List Email) :
    Except String (List (String × CardInfo)) :=
  analyze_credit_cards_from o [] emails

/-! ### src/lib/email_classifier.py — spending aggregation -/

/-- One `spending_info["categories"]` bucket (defaultdict at lines 962-972).
`recent_transactions` and the derived `top_merchants` are omitted: no claim
refers to them (and with `str` dates the `date.strftime` at line 1136 raises
`AttributeError`, caught by the function's own `except`, so the fields
modelled here are updated identically either way). -/
structure CategoryData where
  total_spend : ℚ := 0
  transaction_count : ℕ := 0
  merchants : List (String × ℕ) := []
  monthly_trends : List (String × ℚ) := []
  average_transaction : ℚ := 0
  largest_transaction : ℚ := 0
  spend_percentage : Option ℚ := none
deriving DecidableEq

/-- `spending_info["overall"]` (lines 973-979).  Its `top_merchants` list is
initialised empty and never written in v1; omitted. -/
structure OverallData where
  total_spend : ℚ := 0
  total_transactions : ℕ := 0
  monthly_totals : List (String × ℚ) := []
  peak_spending_month : Option String := none
deriving DecidableEq

/-- The whole `spending_info` dict. -/
structure SpendingInfo where
  categories : List (String × CategoryData) := []
  overall : OverallData := {}
deriving DecidableEq

/-- `defaultdict(float)`-style add (`d[k] += a`). -/
def addQ (k : String) (a : ℚ) : List (String × ℚ) → List (String × ℚ)
  | [] => [(k, a)]
  | (k', v) :: rest => if k' = k then (k', v + a) :: rest else (k', v) :: addQ k a rest

/-- `defaultdict(int)`-style increment (`d[k] += 1`). -/
def addN (k : String) : List (String × ℕ) → List (String × ℕ)
  | [] => [(k, 1)]
  | (k', v) :: rest => if k' = k then (k', v + 1) :: rest else (k', v) :: addN k rest

/-- defaultdict read-modify-write: apply `f` to the entry at `k`, creating it
from the default `d` first when missing. -/
def adjust {α : Type} (k : String) (d : α) (f : α → α) :
    List (String × α) → List (String × α)
  | [] => [(k, f d)]
  | (k', v) :: rest => if k' = k then (k', f v) :: rest else (k', v) :: adjust k d f rest

/-- `EmailAnalyzer._update_category_metrics` (lines 1103-1150), parametrised by
the `pd.to_datetime(date).strftime("%Y-%m")` oracle `monthO` (`none` models a
parse exception, caught by the inner `try` at lines 1122-1126).  The leading
`if not all([...])` truthiness guard and the per-field updates are as in the
source; see `CategoryData` for the omitted `recent_transactions` tail. -/
def update_category_metrics (monthO : PyDate → Option String) (t : Txn)
    (info : SpendingInfo) : SpendingInfo :=
  if t.category = "" ∨ t.amount = 0 ∨ pyDateTruthy t.date = false ∨ t.merchant = "" then
    info
  else
    { info with
      categories :=
        adjust t.category {}
          (fun c =>
            let c1 :=
              { c with
                total_spend := c.total_spend + t.amount,
                transaction_count := c.transaction_count + 1,
                merchants := addN t.merchant c.merchants }
            let c2 :=
              match monthO t.date with
              | some mk => { c1 with monthly_trends := addQ mk t.amount c1.monthly_trends }
              | none => c1
            { c2 with largest_transaction := max c2.largest_transaction t.amount })
          info.categories }

/-- `EmailAnalyzer._update_overall_metrics` (lines 1152-1173).  There is no
`try` here: a date that `pd.to_datetime` cannot parse propagates out of
`analyze_spending` (modelled as `.error`). -/
def update_overall_metrics (monthO : PyDate → Option String) (t : Txn)
    (info : SpendingInfo) : Except String SpendingInfo :=
  let o1 :=
    { info.overall with
      total_spend := info.overall.total_spend + t.amount,
      total_transactions := info.overall.total_transactions + 1 }
  match monthO t.date with
  | none => .error "DateParseError"
  | some mk =>
    let o2 := { o1 with monthly_totals := addQ mk t.amount o1.monthly_totals }
    let o3 :=
      if o2.peak_spending_month = none ∨
          ((alookup o2.monthly_totals ((o2.peak_spending_month).getD "")).getD 0 <
            (alookup o2.monthly_totals mk).getD 0) then
        { o2 with peak_spending_month := some mk }
      else o2
    .ok { info with overall := o3 }

/-- One iteration of the `analyze_spending` email loop (lines 982-1001):
skip credit-card payments, skip promotional content, extract, then update
category and overall metrics. -/
def spending_step (o : ReOracle) (monthO : PyDate → Option String)
    (st : SpendingInfo) (e : Email) : Except String SpendingInfo :=
  let content := e.subject ++ " " ++ e.content
  let sender := pyLower e.sender
  if get_transaction_type content sender = "credit_card_payment" then .ok st
  else if is_credit_card_promotional content then .ok st
  else
    match extract_transaction_details o content e.date sender with
    | none => .ok st
    | some t => update_overall_metrics monthO t (update_category_metrics monthO t st)

/-- Python `round(x, 2)`'s integer part: round half to even at the given value. -/
def round_half_even (y : ℚ) : ℤ :=
  if y - ⌊y⌋ < 1/2 then ⌊y⌋
  else if 1/2 < y - ⌊y⌋ then ⌊y⌋ + 1
  else if ⌊y⌋ % 2 = 0 then ⌊y⌋ else ⌊y⌋ + 1

/-- Python `round(x, 2)` (round half to even), modelled exactly on ℚ. -/
def pyRound2 (x : ℚ) : ℚ :=
  ((round_half_even (x * 100) : ℤ) : ℚ) / 100

/-- `EmailAnalyzer._calculate_spending_metrics` (lines 1175-1213): for each
category with transactions, set the rounded average and spend percentage.
The per-category `top_merchants` list is omitted (no claim refers to it).
In Python an overall total of 0 alongside a nonzero-count category raises
`ZeroDivisionError`, swallowed by this function's `except`; the theorems below
exclude that case by hypothesis (in Lean `x / 0 = 0`). -/
def calculate_spending_metrics (info : SpendingInfo) : SpendingInfo :=
  { info with
    categories :=
      info.categories.map (fun p =>
        if 0 < p.2.transaction_count then
          (p.1,
            { p.2 with
              average_transaction :=
                pyRound2 (p.2.total_spend / (p.2.transaction_count : ℚ)),
              spend_percentage :=
                some (pyRound2 (p.2.total_spend / info.overall.total_spend * 100)) })
        else p) }

/-- The `analyze_spending` loop from a given state. -/
def analyze_spending_from (o : ReOracle) (monthO : PyDate → Option String)
    (st : SpendingInfo) : List Email → Except String SpendingInfo
  | [] => .ok st
  | e :: rest =>
    match spending_step o monthO st e with
    | .error msg => .error msg
    | .ok st' => analyze_spending_from o monthO st' rest

/-- `EmailAnalyzer.analyze_spending` (lines 959-1005): run the loop from the
empty state, then the finalisation pass. -/
def analyze_spending (o : ReOracle) (monthO : PyDate → Option String)
    (emails : List Email) : Except String SpendingInfo :=
  match analyze_spending_from o monthO {} emails with
  | .error msg => .error msg
  | .ok st => .ok (calculate_spending_metrics st)

/-- `EmailAnalyzer.analyze_emails` (lines 887-908): build credit and spending
analyses; its `except` re-raises any exception as
`Exception("Email analysis failed: ...")`, so one bad email aborts the whole
batch.  (The summary/insights fields are not referenced by any claim.) -/
def analyze_emails (o : ReOracle) (monthO : PyDate → Option String)
    (emails : List Email) :
    Except String (List (String × CardInfo) × SpendingInfo) :=
  match analyze_credit_cards o emails with
  | .error msg => .error ("Email analysis failed: " ++ msg)
  | .ok c =>
    match analyze_spending o monthO emails with
    | .error msg => .error ("Email analysis failed: " ++ msg)
    | .ok s => .ok (c, s)

/-! ### src/lib/email_classifier.py — `_generate_merchant_insights` (lines 1405-1469)

Transaction dates are modelled as integer day ordinals (the value
`pd.to_datetime` parses); `(d2 - d1).days` is then ordinal subtraction. -/

/-- A transaction dict as consumed by `_generate_merchant_insights`
(`merchant`, `amount`, optional `date`). -/
structure MTxn where
  merchant : String
  amount : ℚ
  date : Option ℤ
deriving DecidableEq

/-- One `merchant_data[merchant]` entry (lines 1419-1431). -/
structure MData where
  count : ℕ := 0
  amount : ℚ := 0
  dates : List ℤ := []
deriving DecidableEq

/-- Folding one transaction into `merchant_data` (lines 1423-1431); a missing
date is not appended (`if date:`). -/
def mtxn_fold (md : List (String × MData)) (t : MTxn) : List (String × MData) :=
  adjust t.merchant {}
    (fun d =>
      { count := d.count + 1, amount := d.amount + t.amount,
        dates := d.dates ++ (match t.date with | some x => [x] | none => []) }) md

/-- The `merchant_data` defaultdict after the accumulation loop. -/
def build_merchant_data (transactions : List MTxn) : List (String × MData) :=
  transactions.foldl mtxn_fold []

/-- `sorted(merchant_data.items(), key=count, reverse=True)[0]`: the stable
descending sort is only read at index 0, i.e. the first entry attaining the
maximal count. -/
def top_merchant : List (String × MData) → Option (String × MData) :=
  List.foldl
    (fun acc x =>
      match acc with
      | none => some x
      | some b => if b.2.count < x.2.count then some x else some b) none

/-- Consecutive differences (`dates[i+1] - dates[i]`, in days). -/
def diffsZ : List ℤ → List ℤ
  | [] => []
  | [_] => []
  | a :: b :: rest => (b - a) :: diffsZ (b :: rest)

/-- `sum(date_diffs) / len(date_diffs)` as an exact rational. -/
def meanQ (ds : List ℤ) : ℚ :=
  ((ds.map (fun z => (z : ℚ))).sum) / (ds.length : ℚ)

/-- Python `int(·)`: truncation toward zero. -/
def pyTrunc (q : ℚ) : ℤ :=
  if 0 ≤ q then ⌊q⌋ else -⌊-q⌋

/-- One pass of the recurring-payment loop (lines 1448-1463): a merchant with
at least 3 transactions and a nonempty date list whose consecutive deltas all
lie within ±5 days of their mean is reported at the `int()` of the mean. -/
def recurring_insight (p : String × MData) : Option String :=
  if 3 ≤ p.2.count then
    if p.2.dates.isEmpty then none
    else
      if (diffsZ p.2.dates).all (fun z => |(z : ℚ) - meanQ (diffsZ p.2.dates)| ≤ 5) then
        some ("Possible recurring payment: " ++ p.1 ++ " (~every "
          ++ toString (pyTrunc (meanQ (diffsZ p.2.dates))) ++ " days)")
      else none
  else none

/-- Grouping of a digit string (reversed) into comma-separated thousands. -/
def groupDigitsAux : List Char → List Char
  | a :: b :: c :: d :: rest => a :: b :: c :: ',' :: groupDigitsAux (d :: rest)
  | l => l

/-- Python `f"{q:,.2f}"`: two decimals (half-even) with thousands separators. -/
def fmtMoney (q : ℚ) : String :=
  (if round_half_even (q * 100) < 0 then "-" else "")
    ++ String.mk (groupDigitsAux (toString ((round_half_even (q * 100)).natAbs / 100)).data.reverse).reverse
    ++ "."
    ++ (if (round_half_even (q * 100)).natAbs % 100 < 10 then
          "0" ++ toString ((round_half_even (q * 100)).natAbs % 100)
        else toString ((round_half_even (q * 100)).natAbs % 100))

/-- `EmailAnalyzer._generate_merchant_insights` (lines 1405-1469): empty input
returns `[]`; a merchant with `count ≥ 3` but exactly one recorded date makes
`sum([]) / len([])` raise `ZeroDivisionError`, and the function's `except`
returns `[]`; otherwise the top-merchant insight is followed by the recurring
insights in `merchant_data` order. -/
def generate_merchant_insights (transactions : List MTxn) : List String :=
  if transactions.isEmpty then []
  else
    if (build_merchant_data transactions).any
        (fun p => decide (3 ≤ p.2.count) && (p.2.dates.length == 1)) then []
    else
      (match top_merchant (build_merchant_data transactions) with
       | none => []
       | some p =>
         ["Most frequent merchant: " ++ p.1 ++ " (" ++ toString p.2.count
           ++ " transactions, ₹" ++ fmtMoney p.2.amount ++ " total)"])
        ++ (build_merchant_data transactions).filterMap recurring_insight

/-- The per-card amount invariant: `total_spend` equals the sum of the amounts
of the recorded transactions. -/
def card_inv (c : CardInfo) : Prop :=
  c.total_spend = (c.transactions.map (fun t => t.amount)).sum

/-- A small post-accumulation spending state used to witness `C5_percentage_invariant`. -/
def c5_example_state : SpendingInfo :=
  { categories :=
      [("food_dining", { total_spend := 30, transaction_count := 1 }),
       ("shopping_retail", { total_spend := 70, transaction_count := 2 })],
    overall := { total_spend := 100, total_transactions := 3 } }

/-! ### Claim C6: recurring-payment detection -/

/-- Number of transactions of merchant `m`. -/
def mcount (m : String) (ts : List MTxn) : ℕ :=
  (ts.filter (fun t => t.merchant = m)).length

/-- Total amount of merchant `m`'s transactions. -/
def mamount (m : String) (ts : List MTxn) : ℚ :=
  ((ts.filter (fun t => t.merchant = m)).map (fun t => t.amount)).sum

/-- The recorded dates of merchant `m`'s transactions, in batch order. -/
def mdates (m : String) (ts : List MTxn) : List ℤ :=
  (ts.filter (fun t => t.merchant = m)).filterMap (fun t => t.date)

/-- Three NETFLIX transactions dated 2024-01-05, 2024-02-05 and 2024-03-06,
as day ordinals relative to the first (deltas 31 and 30 days — 2024 is a leap
year, so Feb 5 → Mar 6 is 30 days). -/
def netflix3 : List MTxn :=
  [{ merchant := "NETFLIX", amount := 199, date := some 0 },
   { merchant := "NETFLIX", amount := 199, date := some 31 },
   { merchant := "NETFLIX", amount := 199, date := some 61 }]

/-- The same with a fourth transaction at a day-delta of 90. -/
def netflix4 : List MTxn :=
  netflix3 ++ [{ merchant := "NETFLIX", amount := 199, date := some 151 }]

/-! ### Helper lemmas for the score folds -/

/-- A fold that adds a constant `c` for each element failing a Bool test equals
the starting value plus `c` times the number of failing elements. -/
theorem foldl_penalty_count (p : String → Bool) (c : ℚ) :
    ∀ (l : List String) (s0 : ℚ),
      l.foldl (fun score app => if p app = false then score + c else score) s0
        = s0 + ((l.filter (fun a => p a = false)).length : ℚ) * c := by
  intro l
  induction l with
  | nil => intro s0; simp
  | cons a t ih =>
    intro s0
    by_cases h : p a = false
    · simp only [List.foldl_cons, List.filter_cons, h, if_pos, ih]
      simp [h]
      ring
    · simp only [List.foldl_cons, List.filter_cons, h, ih]
      simp [h]

/-- C1 counterexample: at the claim's inputs (matching name, matching carrier,
one of four account apps missing) the code returns 597.5, not 587.5 — a carrier
match yields a network-validation score of 100, contributing 0.10 × 100 = 10. -/
theorem C1_counterexample :
    (calculate_final_score 700 "VERY_HIGH" "John Doe" "John Doe" ["airtel"] "Airtel"
        ["amazon", "netflix", "spotify"] ["amazon", "facebook", "netflix", "spotify"]).map
      (fun r => r.final_score) = some 597.5 ∧ (597.5 : ℚ) ≠ 587.5 := by
  constructor
  · with_unfolding_all decide
  · with_unfolding_all decide

/-- C1 (amended): with alternateRiskScore = 700, deviceRiskLevel = "VERY_HIGH",
a claimed name that is a case-insensitive substring of the alternate-data name,
a (non-Vi-group) alternate carrier found in the device carrier list, and exactly
one of four distinct account apps absent from the device list,
`calculate_final_score` returns
`0.5*700 + 0.2*1000 + 0.05*0 + 0.10*100 + 0.15*250 = 597.5`. -/
theorem C1_amended (name_from_input name_from_alt_data : String)
    (network_from_device : List String) (network_from_alt_data : String)
    (downloaded_apps account_apps : List String)
    (h1 : pyIn (pyLower name_from_input) (pyLower name_from_alt_data) = true)
    (h2 : vi_names_list.contains (pyLower network_from_alt_data) = false)
    (h3 : find_needle_in_haystack_contains (pyLower network_from_alt_data)
            network_from_device = true)
    (h4 : account_apps.dedup.length = 4)
    (h5 : (account_apps.dedup.filter
            (fun a => find_needle_in_haystack_contains a downloaded_apps = false)).length = 1) :
    (calculate_final_score 700 "VERY_HIGH" name_from_input name_from_alt_data
        network_from_device network_from_alt_data downloaded_apps account_apps).map
      (fun r => r.final_score) = some 597.5 := by
  have hdev : calculate_device_score "VERY_HIGH" = some 1000 := rfl
  have hin : calculate_input_validation_score name_from_input name_from_alt_data = 0 := by
    unfold calculate_input_validation_score
    rw [h1]
    simp
  have hnet : calculate_network_validation_score network_from_device network_from_alt_data
      = 100 := by
    unfold calculate_network_validation_score
    rw [h2, h3]
    simp
  have happ : calculate_app_profile_score downloaded_apps account_apps = 250 := by
    unfold calculate_app_profile_score
    rw [foldl_penalty_count, h5, h4]
    norm_num
  unfold calculate_final_score
  rw [hdev]
  simp only [Option.map_some]
  rw [hin, hnet, happ]
  norm_num

/-- Closed witness for `C1_amended` at the counterexample inputs. -/
theorem C1_amended_witness :
    pyIn (pyLower "John Doe") (pyLower "John Doe") = true ∧
    vi_names_list.contains (pyLower "Airtel") = false ∧
    find_needle_in_haystack_contains (pyLower "Airtel") ["airtel"] = true ∧
    (["amazon", "facebook", "netflix", "spotify"] : List String).dedup.length = 4 ∧
    ((["amazon", "facebook", "netflix", "spotify"] : List String).dedup.filter
        (fun a => find_needle_in_haystack_contains a ["amazon", "netflix", "spotify"]
          = false)).length = 1 ∧
    (calculate_final_score 700 "VERY_HIGH" "John Doe" "John Doe" ["airtel"] "Airtel"
        ["amazon", "netflix", "spotify"] ["amazon", "facebook", "netflix", "spotify"]).map
      (fun r => r.final_score) = some 597.5 :=
  ⟨by decide, by decide, by decide, by decide, by decide,
   C1_amended "John Doe" "John Doe" ["airtel"] "Airtel"
     ["amazon", "netflix", "spotify"] ["amazon", "facebook", "netflix", "spotify"]
     (by decide) (by decide) (by decide) (by decide) (by decide)⟩

/-- C9 counterexample: for device carrier list `["vi vodafone idea"]` and
alternate-data carrier `"Vi"`, the network-validation score is 300, exceeding
100, because each member of the {vi, vodafone, idea} group adds 100. -/
theorem C9_counterexample :
    calculate_network_validation_score ["vi vodafone idea"] "Vi" = 300 ∧
    ¬ calculate_network_validation_score ["vi vodafone idea"] "Vi" ≤ 100 := by
  constructor
  · with_unfolding_all decide
  · with_unfolding_all decide

/-- C9 (amended): the score is 100 exactly when the lowercased alternate-data
carrier is found as a substring of some entry of the device-reported carrier
list (and 0 otherwise) — except when the alternate carrier is literally one of
vi/vodafone/idea, in which case 100 is added for each of the three group names
found in the device list, so the score lies in {0, 100, 200, 300} and is
bounded by 300, not by 100. -/
theorem C9_amended (dev : List String) (alt : String) :
    (calculate_network_validation_score dev alt =
      if vi_names_list.contains (pyLower alt) then
        (if find_needle_in_haystack_contains "vi" dev then (100 : ℚ) else 0) +
        (if find_needle_in_haystack_contains "vodafone" dev then 100 else 0) +
        (if find_needle_in_haystack_contains "idea" dev then 100 else 0)
      else if find_needle_in_haystack_contains (pyLower alt) dev then 100 else 0) ∧
    calculate_network_validation_score dev alt ≤ 300 := by
  have hmain : calculate_network_validation_score dev alt =
      if vi_names_list.contains (pyLower alt) then
        (if find_needle_in_haystack_contains "vi" dev then (100 : ℚ) else 0) +
        (if find_needle_in_haystack_contains "vodafone" dev then 100 else 0) +
        (if find_needle_in_haystack_contains "idea" dev then 100 else 0)
      else if find_needle_in_haystack_contains (pyLower alt) dev then 100 else 0 := by
    unfold calculate_network_validation_score
    cases hvi : vi_names_list.contains (pyLower alt) with
    | false => simp
    | true =>
      simp [vi_names_list, List.foldl_cons, List.foldl_nil]
      split_ifs <;> norm_num
  refine ⟨hmain, ?_⟩
  rw [hmain]
  split_ifs <;> norm_num

/-- C10: `calculate_device_score` is defined (a `some` value) exactly on the
four risk levels VERY_HIGH/HIGH/MEDIUM/LOW (with values 1000/750/500/300), and
for every other level string both it and `calculate_final_score` are undefined
(`none`; in Python `calculate_final_score` would raise `TypeError`). -/
theorem C10_device_score_domain :
    (calculate_device_score "VERY_HIGH" = some 1000 ∧
     calculate_device_score "HIGH" = some 750 ∧
     calculate_device_score "MEDIUM" = some 500 ∧
     calculate_device_score "LOW" = some 300) ∧
    ∀ lvl : String, lvl ∉ (["VERY_HIGH", "HIGH", "MEDIUM", "LOW"] : List String) →
      calculate_device_score lvl = none ∧
      ∀ (risk : ℚ) (n1 n2 : String) (dev : List String) (alt : String)
        (apps accts : List String),
        calculate_final_score risk lvl n1 n2 dev alt apps accts = none := by
  refine ⟨⟨rfl, rfl, rfl, rfl⟩, ?_⟩
  intro lvl h
  simp only [List.mem_cons, List.not_mem_nil, or_false, not_or] at h
  obtain ⟨h1, h2, h3, h4⟩ := h
  have hnone : calculate_device_score lvl = none := by
    unfold calculate_device_score
    rw [if_neg h1, if_neg h2, if_neg h3, if_neg h4]
  refine ⟨hnone, ?_⟩
  intro risk n1 n2 dev alt apps accts
  unfold calculate_final_score
  rw [hnone]

/-- Closed witness for `C10_device_score_domain` at the unrecognised level "EXTREME". -/
theorem C10_witness :
    "EXTREME" ∉ (["VERY_HIGH", "HIGH", "MEDIUM", "LOW"] : List String) ∧
    calculate_device_score "EXTREME" = none ∧
    calculate_final_score 700 "EXTREME" "a" "b" [] "c" [] [] = none :=
  ⟨by decide,
   (C10_device_score_domain.2 "EXTREME" (by decide)).1,
   (C10_device_score_domain.2 "EXTREME" (by decide)).2 700 "a" "b" [] "c" [] []⟩

/-- C2: for every email whose (lowercased) sender contains a credit-card issuer
keyword and whose content contains a transaction-alert keyword but no
payment-confirmation keyword, `_get_email_type` returns
`credit_card_transaction`, not the generic `credit_cards`. -/
theorem C2_sender_transaction_refinement (content sender : String)
    (h1 : ((v2_categories.head?.getD ("", [])).2.any (fun company => pyIn company sender))
            = true)
    (h2 : v2_payment_keywords.any (fun k => pyIn k (pyLower content)) = false)
    (h3 : v2_txn_keywords.any (fun k => pyIn k (pyLower content)) = true) :
    v2_get_email_type content sender = "credit_card_transaction" := by
  have hroute : v2_sender_route v2_categories content sender
      = some "credit_card_transaction" := by
    simp only [v2_categories, List.head?, Option.getD] at h1
    simp only [v2_categories, v2_sender_route, h1, if_true, h2, h3]
    simp
  simp [v2_get_email_type, hroute]

/-- Closed witness for `C2_sender_transaction_refinement`: sender
`noreply@hdfcbank.com`, content with a transaction-alert keyword and no
payment-confirmation keyword. -/
theorem C2_witness :
    ((v2_categories.head?.getD ("", [])).2.any
        (fun company => pyIn company "noreply@hdfcbank.com")) = true ∧
    v2_payment_keywords.any
        (fun k => pyIn k (pyLower "Transaction Alert: you spent Rs. 500 at AMAZON")) = false ∧
    v2_txn_keywords.any
        (fun k => pyIn k (pyLower "Transaction Alert: you spent Rs. 500 at AMAZON")) = true ∧
    v2_get_email_type "Transaction Alert: you spent Rs. 500 at AMAZON" "noreply@hdfcbank.com"
      = "credit_card_transaction" :=
  ⟨by decide, by decide, by decide,
   C2_sender_transaction_refinement "Transaction Alert: you spent Rs. 500 at AMAZON"
     "noreply@hdfcbank.com" (by decide) (by decide) (by decide)⟩

/-! ### Claim theorems: promotional exclusion, credit invariant, batch abort -/

/-- C3: an email whose combined subject+content contains a promotional keyword
and neither a transaction-alert keyword nor a payment-confirmation keyword is
classified promotional, and both aggregation loops leave their state unchanged
on it — it can produce no transaction and contribute to no card account or
category bucket. -/
theorem C3_promotional_exclusion (o : ReOracle) (monthO : PyDate → Option String)
    (e : Email) (cst : List (String × CardInfo)) (sst : SpendingInfo)
    (hpromo : promotional_keywords.any
        (fun k => pyIn (pyLower k) (pyLower (e.subject ++ " " ++ e.content))) = true)
    (htxn : v1_txn_keywords.any
        (fun k => pyIn (pyLower k) (pyLower (e.subject ++ " " ++ e.content))) = false)
    (hpay : payment_confirmation_keywords.any
        (fun k => pyIn (pyLower k) (pyLower (e.subject ++ " " ++ e.content))) = false) :
    is_credit_card_promotional (e.subject ++ " " ++ e.content) = true ∧
    (∀ st', credit_step o cst e = .ok st' → st' = cst) ∧
    spending_step o monthO sst e = .ok sst := by
  have hcp : is_credit_card_promotional (e.subject ++ " " ++ e.content) = true := by
    unfold is_credit_card_promotional
    rw [hpromo, htxn, hpay]
    simp
  refine ⟨hcp, ?_, ?_⟩
  · intro st' h
    simp only [credit_step, hcp] at h
    cases hd : date_as_str e.date with
    | none => rw [hd] at h; simp at h
    | some d =>
      rw [hd] at h
      simp at h
      exact h.symm
  · simp only [spending_step]
    by_cases hp : get_transaction_type (e.subject ++ " " ++ e.content) (pyLower e.sender)
        = "credit_card_payment"
    · rw [if_pos hp]
    · rw [if_neg hp, if_pos hcp]

/-- Closed witness for `C3_promotional_exclusion`: a pure marketing email. -/
theorem C3_witness :
    promotional_keywords.any
        (fun k => pyIn (pyLower k)
          (pyLower ("" ++ " " ++ "reward points and cashback offer!"))) = true ∧
    v1_txn_keywords.any
        (fun k => pyIn (pyLower k)
          (pyLower ("" ++ " " ++ "reward points and cashback offer!"))) = false ∧
    payment_confirmation_keywords.any
        (fun k => pyIn (pyLower k)
          (pyLower ("" ++ " " ++ "reward points and cashback offer!"))) = false ∧
    is_credit_card_promotional ("" ++ " " ++ "reward points and cashback offer!") = true ∧
    spending_step ⟨fun _ _ => none, fun _ _ => none⟩ (fun _ => none) {}
      { subject := "", content := "reward points and cashback offer!",
        sender := "promo@hdfcbank.com", date := .pstr "2024-01-01" } = .ok {} :=
  ⟨by decide, by decide, by decide,
   (C3_promotional_exclusion ⟨fun _ _ => none, fun _ _ => none⟩ (fun _ => none)
     { subject := "", content := "reward points and cashback offer!",
       sender := "promo@hdfcbank.com", date := .pstr "2024-01-01" } [] {}
     (by decide) (by decide) (by decide)).1,
   (C3_promotional_exclusion ⟨fun _ _ => none, fun _ _ => none⟩ (fun _ => none)
     { subject := "", content := "reward points and cashback offer!",
       sender := "promo@hdfcbank.com", date := .pstr "2024-01-01" } [] {}
     (by decide) (by decide) (by decide)).2.2⟩

/-- Association-list lookup success implies membership. -/
theorem alookup_mem {α : Type} :
    ∀ (l : List (String × α)) (k : String) (v : α),
      alookup l k = some v → (k, v) ∈ l := by
  intro l
  induction l with
  | nil => intro k v h; simp [alookup] at h
  | cons p rest ih =>
    intro k v h
    obtain ⟨k', v'⟩ := p
    simp only [alookup] at h
    by_cases hk : k' = k
    · rw [if_pos hk] at h
      obtain rfl := Option.some.inj h
      subst hk
      exact List.mem_cons_self _ _
    · rw [if_neg hk] at h
      exact List.mem_cons_of_mem _ (ih k v h)

/-- Every entry of `aset k v l` is either the written pair or an old entry. -/
theorem aset_mem {α : Type} (k : String) (v : α) :
    ∀ (l : List (String × α)) (p : String × α),
      p ∈ aset k v l → p = (k, v) ∨ p ∈ l := by
  intro l
  induction l with
  | nil => intro p hp; simp [aset] at hp; exact Or.inl hp
  | cons q rest ih =>
    intro p hp
    obtain ⟨k', v'⟩ := q
    simp only [aset] at hp
    by_cases hk : k' = k
    · rw [if_pos hk] at hp
      rcases List.mem_cons.mp hp with h | h
      · exact Or.inl h
      · exact Or.inr (List.mem_cons_of_mem _ h)
    · rw [if_neg hk] at hp
      rcases List.mem_cons.mp hp with h | h
      · exact Or.inr (h ▸ List.mem_cons_self _ _)
      · rcases ih p h with h' | h'
        · exact Or.inl h'
        · exact Or.inr (List.mem_cons_of_mem _ h')

/-- `_process_transaction` preserves the amount invariant: the transaction is
appended and its amount added to `total_spend` in the same step. -/
theorem process_transaction_inv (o : ReOracle) (content date : String) (c : CardInfo)
    (h : card_inv c) : card_inv (process_transaction o content date c) := by
  unfold card_inv process_transaction
  cases ha : extract_amount o content (get_transaction_type content "") with
  | none => simp only [ha]; exact h
  | some a =>
    simp only [ha]
    by_cases hz : a = 0
    · rw [if_pos hz]; exact h
    · rw [if_neg hz]
      simp only [List.map_append, List.sum_append, List.map_cons, List.map_nil,
        List.sum_cons, List.sum_nil]
      rw [h]
      ring

/-- `_process_payment` never modifies the account it returns: either the
amount is falsy (nothing appended) or `KeyError` is raised. -/
theorem process_payment_ok (o : ReOracle) (content : String) (c v : CardInfo)
    (h : process_payment o content c = .ok v) : v = c := by
  unfold process_payment at h
  cases ha : extract_amount o content "credit_card_payment" with
  | none => simp only [ha] at h; exact (Except.ok.inj h).symm
  | some a =>
    simp only [ha] at h
    by_cases hz : a = 0
    · rw [if_pos hz] at h; exact (Except.ok.inj h).symm
    · rw [if_neg hz] at h; cases h

/-- One `analyze_credit_cards` iteration preserves the amount invariant for
every stored card account. -/
theorem credit_step_inv (o : ReOracle) (st : List (String × CardInfo)) (e : Email)
    (st' : List (String × CardInfo))
    (hinv : ∀ p ∈ st, card_inv p.2) (h : credit_step o st e = .ok st') :
    ∀ p ∈ st', card_inv p.2 := by
  simp only [credit_step] at h
  cases hd : date_as_str e.date with
  | none => rw [hd] at h; cases h
  | some date =>
    rw [hd] at h
    simp only at h
    have hbase : ∀ (key : String) (issuer card_number : String),
        card_inv { (alookup st key).getD {} with
          issuer := some issuer, card_number := some card_number } := by
      intro key issuer card_number
      cases hw : alookup st key with
      | none => simp [hw, card_inv]
      | some w =>
        have := hinv _ (alookup_mem st key w hw)
        simpa [hw, card_inv] using this
    split at h
    · obtain rfl := Except.ok.inj h; exact hinv
    · split at h
      · split at h
        · obtain rfl := Except.ok.inj h; exact hinv
        · rename_i card_number _
          split at h
          · obtain rfl := Except.ok.inj h; exact hinv
          · split at h
            · obtain rfl := Except.ok.inj h; exact hinv
            · rename_i issuer _
              split at h
              · obtain rfl := Except.ok.inj h
                intro p hp
                rcases aset_mem _ _ _ _ hp with hpe | hpo
                · rw [hpe]
                  exact process_transaction_inv o _ _ _ (hbase _ _ _)
                · exact hinv _ hpo
              · cases hpp : process_payment o (e.subject ++ " " ++ e.content)
                    { (alookup st (issuer ++ "_" ++ card_number)).getD {} with
                      issuer := some issuer, card_number := some card_number } with
                | error msg => rw [hpp] at h; cases h
                | ok v =>
                  rw [hpp] at h
                  obtain rfl := Except.ok.inj h
                  intro p hp
                  rcases aset_mem _ _ _ _ hp with hpe | hpo
                  · rw [hpe]
                    have := process_payment_ok o _ _ _ hpp
                    rw [this]
                    exact hbase _ _ _
                  · exact hinv _ hpo
      · obtain rfl := Except.ok.inj h; exact hinv

/-- C4: at every point during and after credit-card aggregation, every stored
card account satisfies `total_spend = sum of its transactions' amounts`:
each loop iteration preserves the invariant (transactions add their amount in
the same step; payment processing never touches it), and any completed run that
returns a state satisfies it for every account. -/
theorem C4_total_spend_invariant (o : ReOracle) :
    (∀ (st : List (String × CardInfo)) (e : Email) (st' : List (String × CardInfo)),
        (∀ p ∈ st, card_inv p.2) → credit_step o st e = .ok st' →
        ∀ p ∈ st', card_inv p.2) ∧
    ∀ (emails : List Email) (s : List (String × CardInfo)),
      analyze_credit_cards o emails = .ok s → ∀ p ∈ s, card_inv p.2 := by
  refine ⟨credit_step_inv o, ?_⟩
  have key : ∀ (emails : List Email) (st s : List (String × CardInfo)),
      (∀ p ∈ st, card_inv p.2) →
      analyze_credit_cards_from o st emails = .ok s → ∀ p ∈ s, card_inv p.2 := by
    intro emails
    induction emails with
    | nil =>
      intro st s hinv h
      obtain rfl := Except.ok.inj h
      exact hinv
    | cons e rest ih =>
      intro st s hinv h
      simp only [analyze_credit_cards_from] at h
      cases hs : credit_step o st e with
      | error msg => rw [hs] at h; cases h
      | ok st1 =>
        rw [hs] at h
        exact ih st1 s (credit_step_inv o st e st1 hinv hs) h
  intro emails s h
  exact key emails [] s (by intro p hp; cases hp) h

/-- Closed witness for `C4_total_spend_invariant`: a one-email run whose oracle
answers match Python's `re` on this content (card pattern 3 captures "1234",
credit-card amount pattern 1 captures "2,499.00"; nothing else matches). -/
theorem C4_witness :
    analyze_credit_cards
      ⟨fun p _ => if p = "Card\\s+ending\\s+(?:in\\s+)?(\\d{4})" then some "1234" else none,
       fun p _ =>
        if p = "(?:transaction\\s+of|charged|used\\s+for)\\s+(?:INR|Rs\\.?|₹)\\s*([\\d,]+(?:\\.\\d{2})?)"
        then some "2,499.00" else none⟩
      [{ subject := "Txn Alert",
         content := "Your credit card charged Rs. 2,499.00. Card ending 1234",
         sender := "alerts@hdfcbank.com", date := .pstr "2024-01-05" }]
      = .ok [("hdfc_1234",
          { card_number := some "1234", issuer := some "hdfc",
            transactions := [{ date := "2024-01-05", amount := 2499,
                               merchant := "unknown", ttype := "debit" }],
            total_spend := 2499, payment_history := [] })] ∧
    ∀ p ∈ ([("hdfc_1234",
          { card_number := some "1234", issuer := some "hdfc",
            transactions := [{ date := "2024-01-05", amount := 2499,
                               merchant := "unknown", ttype := "debit" }],
            total_spend := 2499, payment_history := [] })] : List (String × CardInfo)),
      card_inv p.2 :=
  ⟨by with_unfolding_all rfl,
   (C4_total_spend_invariant
     ⟨fun p _ => if p = "Card\\s+ending\\s+(?:in\\s+)?(\\d{4})" then some "1234" else none,
      fun p _ =>
        if p = "(?:transaction\\s+of|charged|used\\s+for)\\s+(?:INR|Rs\\.?|₹)\\s*([\\d,]+(?:\\.\\d{2})?)"
        then some "2,499.00" else none⟩).2
     [{ subject := "Txn Alert",
        content := "Your credit card charged Rs. 2,499.00. Card ending 1234",
        sender := "alerts@hdfcbank.com", date := .pstr "2024-01-05" }]
     _ (by with_unfolding_all rfl)⟩

/-- C8 (code bug): one bad email aborts the whole analysis.  A batch whose
second email has `date = None` makes `analyze_credit_cards` raise
`AttributeError` at the `date.strftime` conversion (before any skip logic),
and `analyze_emails`' only handler re-raises `Exception("Email analysis
failed: ...")` — no `AnalysisResult` is produced and the first (good) email's
work is lost, contradicting the claimed catch-log-continue behaviour. -/
theorem C8_one_bad_email_aborts_batch :
    analyze_emails ⟨fun _ _ => none, fun _ _ => none⟩ (fun _ => none)
      [{ subject := "Txn Alert", content := "credit card spent Rs. 100",
         sender := "alerts@hdfcbank.com", date := .pstr "2024-01-05 10:00:00" },
       { subject := "Alert", content := "credit card spent",
         sender := "alerts@hdfcbank.com", date := .pnone }]
      = .error "Email analysis failed: AttributeError" := by
  with_unfolding_all rfl

/-! ### Claim C7: extraction null/amount semantics -/

/-- The `_extract_amount` pattern loop returns `none` exactly when no pattern
yields a group that parses (commas stripped) — a matching pattern whose group
fails to parse is skipped (`continue`). -/
theorem extract_amount_go_eq_none_iff (o : ReOracle) (content : String) :
    ∀ ps : List String,
      extract_amount_go o content ps = none ↔
        ∀ p ∈ ps, ∀ g, o.search p content = some g →
          parsePyFloat (removeCommas g) = none := by
  intro ps
  induction ps with
  | nil => simp [extract_amount_go]
  | cons p ps ih =>
    cases hs : o.search p content with
    | none =>
      have hred : extract_amount_go o content (p :: ps) = extract_amount_go o content ps := by
        simp only [extract_amount_go, hs]
      rw [hred, List.forall_mem_cons, ih]
      constructor
      · intro h
        refine ⟨?_, h⟩
        intro g hg
        rw [hs] at hg
        cases hg
      · intro h
        exact h.2
    | some g =>
      cases hp : parsePyFloat (removeCommas g) with
      | some q =>
        have hred : extract_amount_go o content (p :: ps) = some q := by
          simp only [extract_amount_go, hs, hp]
        rw [hred, List.forall_mem_cons]
        constructor
        · intro h; cases h
        · intro h
          have := h.1 g hs
          rw [hp] at this
          cases this
      | none =>
        have hred : extract_amount_go o content (p :: ps) = extract_amount_go o content ps := by
          simp only [extract_amount_go, hs, hp]
        rw [hred, List.forall_mem_cons, ih]
        constructor
        · intro h
          refine ⟨?_, h⟩
          intro g' hg'
          rw [hs] at hg'
          obtain rfl := Option.some.inj hg'
          exact hp
        · intro h
          exact h.2

/-- C7 counterexample: for content `"credit card charged Rs. 0.00 at AMAZON"`
(type `credit_card`), the first credit-card amount pattern captures `"0.00"`
— which parses to the decimal `0` — yet `_extract_transaction_details` still
returns `None`, because `if not amount:` treats the extracted `0.0` as
missing.  The oracle returns exactly what Python's `re.search` returns on this
content. -/
theorem C7_counterexample :
    ((amount_patterns_for
        (get_transaction_type "credit card charged Rs. 0.00 at AMAZON" "")).any
      (fun p =>
        ((ReOracle.mk (fun _ _ => none)
            (fun p c =>
              if p = "(?:transaction\\s+of|charged|used\\s+for)\\s+(?:INR|Rs\\.?|₹)\\s*([\\d,]+(?:\\.\\d{2})?)"
                  ∧ c = "credit card charged Rs. 0.00 at AMAZON"
              then some "0.00" else none)).search p
            "credit card charged Rs. 0.00 at AMAZON").bind
          (fun g => parsePyFloat (removeCommas g)) |>.isSome)) = true ∧
    extract_transaction_details
      (ReOracle.mk (fun _ _ => none)
        (fun p c =>
          if p = "(?:transaction\\s+of|charged|used\\s+for)\\s+(?:INR|Rs\\.?|₹)\\s*([\\d,]+(?:\\.\\d{2})?)"
              ∧ c = "credit card charged Rs. 0.00 at AMAZON"
          then some "0.00" else none))
      "credit card charged Rs. 0.00 at AMAZON" (.pstr "2024-01-01") "" = none := by
  constructor
  · with_unfolding_all decide
  · with_unfolding_all rfl

/-- C7 (amended): transaction extraction returns `None` exactly when the
derived type is unknown or no amount pattern yields a group parsing to a
*Python-truthy* (nonzero) decimal; when it returns a record, the amount is the
value produced by the first pattern whose match parses (commas stripped), and
a missing merchant yields the `"unknown"` sentinel instead of dropping the
record. -/
theorem C7_amended (o : ReOracle) (content : String) (date : PyDate) (sender : String) :
    (extract_transaction_details o content date sender = none ↔
      (get_transaction_type content sender = "unknown" ∨
       extract_amount o content (get_transaction_type content sender) = none ∨
       extract_amount o content (get_transaction_type content sender) = some 0)) ∧
    (extract_amount o content (get_transaction_type content sender) = none ↔
      ∀ p ∈ amount_patterns_for (get_transaction_type content sender), ∀ g,
        o.search p content = some g → parsePyFloat (removeCommas g) = none) ∧
    (∀ t, extract_transaction_details o content date sender = some t →
      extract_amount o content (get_transaction_type content sender) = some t.amount ∧
      t.amount ≠ 0 ∧
      (extract_merchant o content (get_transaction_type content sender) = none →
        t.merchant = "unknown")) := by
  refine ⟨?_, extract_amount_go_eq_none_iff o content _, ?_⟩
  · simp only [extract_transaction_details]
    by_cases h1 : get_transaction_type content sender = "unknown"
    · simp [h1]
    · simp only [h1, if_neg, false_or]
      cases ha : extract_amount o content (get_transaction_type content sender) with
      | none => simp
      | some a =>
        by_cases hz : a = 0
        · simp [hz]
        · simp [hz, Option.some.injEq]
  · intro t ht
    simp only [extract_transaction_details] at ht
    by_cases h1 : get_transaction_type content sender = "unknown"
    · rw [if_pos h1] at ht; cases ht
    · rw [if_neg h1] at ht
      cases ha : extract_amount o content (get_transaction_type content sender) with
      | none => rw [ha] at ht; cases ht
      | some a =>
        simp only [ha] at ht
        by_cases hz : a = 0
        · rw [if_pos hz] at ht; cases ht
        · rw [if_neg hz] at ht
          obtain rfl := Option.some.inj ht
          refine ⟨by simp [ha], by simp [hz], ?_⟩
          intro hm
          simp [hm]

/-- Closed witness for `C7_amended`: a successful extraction whose merchant is
missing, at an oracle agreeing with Python's `re` on this content. -/
theorem C7_amended_witness :
    extract_transaction_details
      (ReOracle.mk (fun _ _ => none)
        (fun p c =>
          if p = "(?:transaction\\s+of|charged|used\\s+for)\\s+(?:INR|Rs\\.?|₹)\\s*([\\d,]+(?:\\.\\d{2})?)"
              ∧ c = "credit card charged Rs. 150.00"
          then some "150.00" else none))
      "credit card charged Rs. 150.00" (.pstr "2024-02-01") ""
      = some { date := .pstr "2024-02-01", amount := 150, merchant := "unknown",
               category := "credit_card", ttype := "credit_card",
               reference := "N/A", payment_mode := "unknown" } ∧
    extract_amount
      (ReOracle.mk (fun _ _ => none)
        (fun p c =>
          if p = "(?:transaction\\s+of|charged|used\\s+for)\\s+(?:INR|Rs\\.?|₹)\\s*([\\d,]+(?:\\.\\d{2})?)"
              ∧ c = "credit card charged Rs. 150.00"
          then some "150.00" else none))
      "credit card charged Rs. 150.00"
      (get_transaction_type "credit card charged Rs. 150.00" "") = some 150 ∧
    (150 : ℚ) ≠ 0 ∧
    ({ date := PyDate.pstr "2024-02-01", amount := 150, merchant := "unknown",
       category := "credit_card", ttype := "credit_card",
       reference := "N/A", payment_mode := "unknown" } : Txn).merchant = "unknown" := by
  have h := (C7_amended
    (ReOracle.mk (fun _ _ => none)
      (fun p c =>
        if p = "(?:transaction\\s+of|charged|used\\s+for)\\s+(?:INR|Rs\\.?|₹)\\s*([\\d,]+(?:\\.\\d{2})?)"
            ∧ c = "credit card charged Rs. 150.00"
        then some "150.00" else none))
    "credit card charged Rs. 150.00" (.pstr "2024-02-01") "").2.2
    { date := .pstr "2024-02-01", amount := 150, merchant := "unknown",
      category := "credit_card", ttype := "credit_card",
      reference := "N/A", payment_mode := "unknown" }
    (by with_unfolding_all rfl)
  refine ⟨by with_unfolding_all rfl, ?_, by norm_num, h.2.2 (by with_unfolding_all rfl)⟩
  simpa using h.1

/-! ### Claim C5: spend-percentage finalisation -/

/-- Round-half-to-even is within 1/2 of its argument. -/
theorem round_half_even_bound (y : ℚ) : |((round_half_even y : ℤ) : ℚ) - y| ≤ 1/2 := by
  have h1 : ((⌊y⌋ : ℤ) : ℚ) ≤ y := Int.floor_le y
  have h2 : y < (⌊y⌋ : ℚ) + 1 := Int.lt_floor_add_one y
  unfold round_half_even
  split_ifs with ha hb hc <;>
    (rw [abs_le]; constructor <;> (push_cast; linarith))

/-- `round(x, 2)` is within 1/200 of `x`. -/
theorem pyRound2_err (x : ℚ) : |pyRound2 x - x| ≤ 1/200 := by
  have h := round_half_even_bound (x * 100)
  rw [abs_le] at h ⊢
  unfold pyRound2
  constructor <;> (obtain ⟨hl, hr⟩ := h; linarith)

/-- The sum of the 2-decimal roundings of a list differs from the sum of the
list by at most `length / 200`. -/
theorem sum_map_pyRound2_err (xs : List ℚ) :
    |(xs.map pyRound2).sum - xs.sum| ≤ (xs.length : ℚ) / 200 := by
  induction xs with
  | nil => simp
  | cons x xs ih =>
    simp only [List.map_cons, List.sum_cons, List.length_cons]
    have h1 := pyRound2_err x
    have key : |(pyRound2 x + (xs.map pyRound2).sum) - (x + xs.sum)|
        ≤ |pyRound2 x - x| + |(xs.map pyRound2).sum - xs.sum| := by
      have := abs_add (pyRound2 x - x) ((xs.map pyRound2).sum - xs.sum)
      calc |(pyRound2 x + (xs.map pyRound2).sum) - (x + xs.sum)|
          = |(pyRound2 x - x) + ((xs.map pyRound2).sum - xs.sum)| := by ring_nf
        _ ≤ _ := this
    have : ((xs.length + 1 : ℕ) : ℚ) = (xs.length : ℚ) + 1 := by push_cast; ring
    rw [this]
    calc |(pyRound2 x + (xs.map pyRound2).sum) - (x + xs.sum)|
        ≤ |pyRound2 x - x| + |(xs.map pyRound2).sum - xs.sum| := key
      _ ≤ 1/200 + (xs.length : ℚ) / 200 := add_le_add h1 ih
      _ = ((xs.length : ℚ) + 1) / 200 := by ring

/-- Dropping the zero-total categories does not change the total-spend sum. -/
theorem sum_totals_filter (L : List (String × CategoryData)) :
    ((L.filter (fun p => p.2.total_spend ≠ 0)).map (fun p => p.2.total_spend)).sum
      = (L.map (fun p => p.2.total_spend)).sum := by
  induction L with
  | nil => simp
  | cons p L ih =>
    rw [List.filter_cons]
    by_cases h : p.2.total_spend = 0
    · rw [if_neg (by simp [h]), ih, List.map_cons, List.sum_cons, h, zero_add]
    · rw [if_pos (by simp [h]), List.map_cons, List.map_cons, List.sum_cons,
        List.sum_cons, ih]

/-- C5: after `_calculate_spending_metrics`, every category with transactions
carries `average_transaction = round(total/count, 2)` and `spend_percentage =
round(total/overallTotal*100, 2)`, and — when the overall total equals the sum
of the category totals and is nonzero, and every category with nonzero spend
has transactions — the rounded percentages of the nonzero-spend categories sum
to 100 up to the accumulated rounding error (at most `n/200` for `n` such
categories). -/
theorem C5_percentage_invariant (s : SpendingInfo)
    (h1 : s.overall.total_spend = (s.categories.map (fun p => p.2.total_spend)).sum)
    (h2 : s.overall.total_spend ≠ 0)
    (h3 : ∀ p ∈ s.categories, p.2.total_spend ≠ 0 → 0 < p.2.transaction_count) :
    (∀ q ∈ (calculate_spending_metrics s).categories, 0 < q.2.transaction_count →
        q.2.average_transaction = pyRound2 (q.2.total_spend / (q.2.transaction_count : ℚ)) ∧
        q.2.spend_percentage
          = some (pyRound2 (q.2.total_spend / s.overall.total_spend * 100))) ∧
    |(((calculate_spending_metrics s).categories.filter
          (fun q => q.2.total_spend ≠ 0)).map
        (fun q => q.2.spend_percentage.getD 0)).sum - 100|
      ≤ (((calculate_spending_metrics s).categories.filter
          (fun q => q.2.total_spend ≠ 0)).length : ℚ) / 200 := by
  set T := s.overall.total_spend with hT
  set g := fun p : String × CategoryData =>
    if 0 < p.2.transaction_count then
      (p.1,
        { p.2 with
          average_transaction := pyRound2 (p.2.total_spend / (p.2.transaction_count : ℚ)),
          spend_percentage := some (pyRound2 (p.2.total_spend / T * 100)) })
    else p with hg
  have hcats : (calculate_spending_metrics s).categories = s.categories.map g := rfl
  have hg_total : ∀ p, (g p).2.total_spend = p.2.total_spend := by
    intro p
    rw [hg]
    by_cases h : 0 < p.2.transaction_count <;> simp [h]
  have hg_count : ∀ p, (g p).2.transaction_count = p.2.transaction_count := by
    intro p
    rw [hg]
    by_cases h : 0 < p.2.transaction_count <;> simp [h]
  constructor
  · intro q hq hqc
    rw [hcats] at hq
    obtain ⟨p, hp, rfl⟩ := List.mem_map.mp hq
    rw [hg_count] at hqc
    rw [hg_total, hg_count]
    rw [hg]
    simp only [hqc, if_pos]
    exact ⟨trivial, trivial⟩
  · -- the filtered mapped list is the pointwise rounding of the raw percentages
    have hfil : ((calculate_spending_metrics s).categories.filter
          (fun q => q.2.total_spend ≠ 0))
        = (s.categories.filter (fun p => p.2.total_spend ≠ 0)).map g := by
      rw [hcats, List.filter_map]
      congr 1
      apply List.filter_congr
      intro p _
      simp [Function.comp, hg_total]
    set F := s.categories.filter (fun p => p.2.total_spend ≠ 0) with hF
    have hFmem : ∀ p ∈ F, p.2.total_spend ≠ 0 ∧ p ∈ s.categories := by
      intro p hp
      rw [hF] at hp
      have h1' := List.of_mem_filter hp
      have h2' := List.mem_of_mem_filter hp
      constructor
      · simpa using h1'
      · exact h2'
    have hmapped : (((calculate_spending_metrics s).categories.filter
          (fun q => q.2.total_spend ≠ 0)).map (fun q => q.2.spend_percentage.getD 0))
        = (F.map (fun p => p.2.total_spend / T * 100)).map pyRound2 := by
      rw [hfil, List.map_map, List.map_map]
      apply List.map_congr_left
      intro p hp
      obtain ⟨hpne, hpmem⟩ := hFmem p hp
      have hcount := h3 p hpmem hpne
      simp only [Function.comp]
      rw [hg]
      simp [hcount]
    have hsum : (F.map (fun p => p.2.total_spend / T * 100)).sum = 100 := by
      have hx : (F.map (fun p => p.2.total_spend / T * 100))
          = F.map (fun p => p.2.total_spend * (100 / T)) := by
        apply List.map_congr_left
        intro p _
        ring
      rw [hx, List.sum_map_mul_right]
      have : (F.map (fun p => p.2.total_spend)).sum
          = (s.categories.map (fun p => p.2.total_spend)).sum := by
        rw [hF]
        exact sum_totals_filter s.categories
      rw [this, ← h1]
      field_simp
    have hlen : (((calculate_spending_metrics s).categories.filter
          (fun q => q.2.total_spend ≠ 0)).length : ℚ)
        = ((F.map (fun p => p.2.total_spend / T * 100)).length : ℚ) := by
      rw [hfil, hF]
      simp
    rw [hmapped, hlen]
    have := sum_map_pyRound2_err (F.map (fun p => p.2.total_spend / T * 100))
    rw [hsum] at this
    exact this

/-- Closed witness for `C5_percentage_invariant` at a concrete two-category state. -/
theorem C5_witness :
    c5_example_state.overall.total_spend
      = (c5_example_state.categories.map (fun p => p.2.total_spend)).sum ∧
    c5_example_state.overall.total_spend ≠ 0 ∧
    (∀ p ∈ c5_example_state.categories,
      p.2.total_spend ≠ 0 → 0 < p.2.transaction_count) ∧
    |(((calculate_spending_metrics c5_example_state).categories.filter
          (fun q => q.2.total_spend ≠ 0)).map
        (fun q => q.2.spend_percentage.getD 0)).sum - 100|
      ≤ (((calculate_spending_metrics c5_example_state).categories.filter
          (fun q => q.2.total_spend ≠ 0)).length : ℚ) / 200 :=
  ⟨by with_unfolding_all decide, by with_unfolding_all decide,
   by with_unfolding_all decide,
   (C5_percentage_invariant c5_example_state (by with_unfolding_all decide)
     (by with_unfolding_all decide) (by with_unfolding_all decide)).2⟩

/-- Reading back the key just adjusted. -/
theorem alookup_adjust_self {α : Type} (k : String) (d : α) (f : α → α) :
    ∀ l : List (String × α),
      alookup (adjust k d f l) k = some (f ((alookup l k).getD d)) := by
  intro l
  induction l with
  | nil => simp [adjust, alookup]
  | cons p rest ih =>
    obtain ⟨k', v'⟩ := p
    by_cases hk : k' = k
    · simp [adjust, alookup, hk]
    · simp [adjust, alookup, hk, ih]

/-- Reading a different key after an adjust. -/
theorem alookup_adjust_ne {α : Type} (k : String) (d : α) (f : α → α) (m : String)
    (hk : k ≠ m) :
    ∀ l : List (String × α), alookup (adjust k d f l) m = alookup l m := by
  intro l
  induction l with
  | nil => simp [adjust, alookup, hk]
  | cons p rest ih =>
    obtain ⟨k', v'⟩ := p
    by_cases hk' : k' = k
    · subst hk'
      simp [adjust, alookup, hk]
    · by_cases hm : k' = m
      · subst hm
        have hmk : ¬ k' = k := hk'
        simp [adjust, alookup, hmk]
      · simp [adjust, alookup, hk', hm, ih]

/-- Looking up a merchant in the `merchant_data` fold: the accumulated entry
(if any) extended by that merchant's count/amount/dates in the remaining
transactions. -/
theorem alookup_build_aux (m : String) :
    ∀ (ts : List MTxn) (acc : List (String × MData)),
      alookup (ts.foldl mtxn_fold acc) m =
        match alookup acc m with
        | some d =>
          some { count := d.count + mcount m ts, amount := d.amount + mamount m ts,
                 dates := d.dates ++ mdates m ts }
        | none =>
          if mcount m ts = 0 then none
          else some { count := mcount m ts, amount := mamount m ts,
                      dates := mdates m ts } := by
  intro ts
  induction ts with
  | nil =>
    intro acc
    cases hacc : alookup acc m with
    | none => simp [hacc, mcount, mamount, mdates]
    | some d => simp [hacc, mcount, mamount, mdates]
  | cons t ts ih =>
    intro acc
    rw [List.foldl_cons, ih]
    by_cases hm : t.merchant = m
    · have hself : alookup (mtxn_fold acc t) m
          = some ({ count := ((alookup acc m).getD {}).count + 1,
                    amount := ((alookup acc m).getD {}).amount + t.amount,
                    dates := ((alookup acc m).getD {}).dates ++
                      (match t.date with | some x => [x] | none => []) } : MData) := by
        unfold mtxn_fold
        rw [hm]
        exact alookup_adjust_self m {} _ acc
      have hc : mcount m (t :: ts) = mcount m ts + 1 := by
        simp [mcount, List.filter_cons, hm]
      have hamt : mamount m (t :: ts) = t.amount + mamount m ts := by
        simp [mamount, List.filter_cons, hm]
      have hd : mdates m (t :: ts)
          = (match t.date with | some x => [x] | none => []) ++ mdates m ts := by
        simp only [mdates, List.filter_cons]
        rw [if_pos (by simp [hm]), List.filterMap_cons]
        cases t.date <;> simp
      rw [hself]
      cases hacc : alookup acc m with
      | some d =>
        simp only [hacc, Option.getD_some, hc, hamt, hd, Option.some.injEq,
          MData.mk.injEq]
        refine ⟨by omega, by ring, by rw [List.append_assoc]⟩
      | none =>
        have hne0 : ¬ (mcount m (t :: ts) = 0) := by rw [hc]; omega
        have hd0 : ({} : MData).count = 0 := rfl
        have hd1 : ({} : MData).amount = 0 := rfl
        have hd2 : ({} : MData).dates = ([] : List ℤ) := rfl
        rw [hc] at hne0
        simp only [hacc, Option.getD_none, hd0, hd1, hd2, hc, hamt, hd,
          if_neg hne0, Option.some.injEq, MData.mk.injEq]
        refine ⟨by omega, by ring, by simp⟩
    · have hne : alookup (mtxn_fold acc t) m = alookup acc m := by
        unfold mtxn_fold
        exact alookup_adjust_ne t.merchant {} _ m hm acc
      have hc : mcount m (t :: ts) = mcount m ts := by
        simp [mcount, List.filter_cons, hm]
      have hamt : mamount m (t :: ts) = mamount m ts := by
        simp [mamount, List.filter_cons, hm]
      have hd : mdates m (t :: ts) = mdates m ts := by
        simp only [mdates, List.filter_cons]
        rw [if_neg (by simp [hm])]
      rw [hne, hc, hamt, hd]

/-- The merchant-data entry for a merchant occurring in the batch. -/
theorem build_merchant_lookup (ts : List MTxn) (m : String) (h : mcount m ts ≠ 0) :
    alookup (build_merchant_data ts) m
      = some { count := mcount m ts, amount := mamount m ts, dates := mdates m ts } := by
  have := alookup_build_aux m ts []
  rw [build_merchant_data, this]
  simp [alookup, h]

/-- `adjust` keeps the key list, appending the key only when it is new. -/
theorem adjust_keys_eq {α : Type} (k : String) (d : α) (f : α → α) :
    ∀ l : List (String × α),
      (adjust k d f l).map Prod.fst =
        if k ∈ l.map Prod.fst then l.map Prod.fst else l.map Prod.fst ++ [k] := by
  intro l
  induction l with
  | nil => simp [adjust]
  | cons p rest ih =>
    obtain ⟨k', v'⟩ := p
    by_cases hk : k' = k
    · subst hk
      simp [adjust]
    · have hne : ¬ (k = k') := fun h => hk h.symm
      simp only [adjust, if_neg hk, List.map_cons, List.mem_cons, ih]
      by_cases hmem : k ∈ rest.map Prod.fst
      · simp [hmem, hne]
      · simp [hmem, hne]

/-- Folding transactions into `merchant_data` keeps the keys duplicate-free. -/
theorem build_keys_nodup (ts : List MTxn) :
    ((build_merchant_data ts).map Prod.fst).Nodup := by
  have key : ∀ (l : List MTxn) (acc : List (String × MData)),
      (acc.map Prod.fst).Nodup → ((l.foldl mtxn_fold acc).map Prod.fst).Nodup := by
    intro l
    induction l with
    | nil => intro acc h; exact h
    | cons t rest ih =>
      intro acc h
      rw [List.foldl_cons]
      apply ih
      rw [mtxn_fold, adjust_keys_eq]
      by_cases hmem : t.merchant ∈ acc.map Prod.fst
      · rw [if_pos hmem]; exact h
      · rw [if_neg hmem]
        rw [List.nodup_append]
        exact ⟨h, List.nodup_singleton _, by simpa using hmem⟩
  exact key ts [] (by simp)

/-- With duplicate-free keys, membership determines the lookup. -/
theorem alookup_of_mem_nodup {α : Type} :
    ∀ (l : List (String × α)), ((l.map Prod.fst).Nodup) →
      ∀ p ∈ l, alookup l p.1 = some p.2 := by
  intro l
  induction l with
  | nil => intro _ p hp; cases hp
  | cons q rest ih =>
    intro hnd p hp
    obtain ⟨k', v'⟩ := q
    rw [List.map_cons, List.nodup_cons] at hnd
    rcases List.mem_cons.mp hp with h | h
    · subst h
      simp [alookup]
    · have hkey : p.1 ∈ rest.map Prod.fst := List.mem_map_of_mem Prod.fst h
      have hne : ¬ (k' = p.1) := fun he => hnd.1 (he ▸ hkey)
      simp only [alookup, if_neg hne]
      exact ih hnd.2 p h

/-- `filterMap` keeps the length when every element maps to `some`. -/
theorem filterMap_length_all_isSome {α β : Type} (f : α → Option β) :
    ∀ l : List α, (∀ x ∈ l, (f x).isSome) → (l.filterMap f).length = l.length := by
  intro l
  induction l with
  | nil => simp
  | cons x rest ih =>
    intro h
    rw [List.filterMap_cons]
    cases hx : f x with
    | none =>
      have := h x (List.mem_cons_self _ _)
      rw [hx] at this
      cases this
    | some b =>
      simp only [List.length_cons]
      rw [ih (fun y hy => h y (List.mem_cons_of_mem _ hy))]

/-- When every transaction carries a date, a merchant's recorded dates count
its transactions. -/
theorem mdates_length (m : String) (ts : List MTxn)
    (hall : ∀ t ∈ ts, t.date.isSome) : (mdates m ts).length = mcount m ts := by
  unfold mdates mcount
  exact filterMap_length_all_isSome _ _
    (fun t ht => hall t (List.mem_of_mem_filter ht))

/-- With all transactions dated, the `ZeroDivisionError` guard of the
recurring loop can never fire. -/
theorem build_no_crash (ts : List MTxn) (hall : ∀ t ∈ ts, t.date.isSome) :
    (build_merchant_data ts).any
      (fun p => decide (3 ≤ p.2.count) && (p.2.dates.length == 1)) = false := by
  rw [List.any_eq_false]
  intro p hp
  have hl := alookup_of_mem_nodup _ (build_keys_nodup ts) p hp
  have haux := alookup_build_aux p.1 ts []
  rw [build_merchant_data] at hl
  rw [hl] at haux
  simp only [alookup] at haux
  by_cases hc : mcount p.1 ts = 0
  · rw [if_pos hc] at haux; cases haux
  · rw [if_neg hc] at haux
    obtain hpd := Option.some.inj haux
    have hdlen : p.2.dates.length = p.2.count := by
      rw [hpd]
      exact mdates_length p.1 ts hall
    intro hcontra
    rw [Bool.and_eq_true, decide_eq_true_eq, beq_iff_eq] at hcontra
    omega

/-- C6: a merchant with at least 3 (all-dated) transactions whose consecutive
date deltas all lie within ±5 days of their mean is reported as a probable
recurring payment at the truncated mean interval; in particular the NETFLIX
triple (deltas 31, 30) is reported at a 30-day interval, while adding a fourth
transaction at a 90-day delta prevents any recurring report for NETFLIX. -/
theorem C6_recurring_detection :
    (∀ (ts : List MTxn) (m : String),
      (∀ t ∈ ts, t.date.isSome) →
      3 ≤ mcount m ts →
      (∀ z ∈ diffsZ (mdates m ts),
        |(z : ℚ) - meanQ (diffsZ (mdates m ts))| ≤ 5) →
      ("Possible recurring payment: " ++ m ++ " (~every "
          ++ toString (pyTrunc (meanQ (diffsZ (mdates m ts)))) ++ " days)")
        ∈ generate_merchant_insights ts) ∧
    ("Possible recurring payment: NETFLIX (~every 30 days)"
      ∈ generate_merchant_insights netflix3) ∧
    ((generate_merchant_insights netflix4).any
      (fun s => listStarts "Possible recurring payment: NETFLIX".data s.data)) = false := by
  refine ⟨?_, by with_unfolding_all decide, by with_unfolding_all decide⟩
  intro ts m hall hcnt hreg
  have hne : mcount m ts ≠ 0 := by omega
  have hlook := build_merchant_lookup ts m hne
  have hmem := alookup_mem _ _ _ hlook
  have hts : ts.isEmpty = false := by
    cases ts with
    | nil => simp [mcount] at hcnt
    | cons t rest => rfl
  have hlen := mdates_length m ts hall
  unfold generate_merchant_insights
  rw [if_neg (by simp [hts]), if_neg (by simp [build_no_crash ts hall])]
  apply List.mem_append_right
  apply List.mem_filterMap.mpr
  refine ⟨(m, { count := mcount m ts, amount := mamount m ts, dates := mdates m ts }),
    hmem, ?_⟩
  unfold recurring_insight
  rw [if_pos hcnt]
  have hdne : (mdates m ts).isEmpty = false := by
    cases hmd : mdates m ts with
    | nil => rw [hmd] at hlen; simp at hlen; omega
    | cons a l => rfl
  rw [if_neg (by simp [hdne])]
  rw [if_pos ?_]
  apply List.all_eq_true.mpr
  intro z hz
  exact decide_eq_true (hreg z hz)

/-- Closed witness for `C6_recurring_detection` at the NETFLIX triple. -/
theorem C6_witness :
    (∀ t ∈ netflix3, t.date.isSome) ∧
    3 ≤ mcount "NETFLIX" netflix3 ∧
    (∀ z ∈ diffsZ (mdates "NETFLIX" netflix3),
      |(z : ℚ) - meanQ (diffsZ (mdates "NETFLIX" netflix3))| ≤ 5) ∧
    ("Possible recurring payment: " ++ "NETFLIX" ++ " (~every "
        ++ toString (pyTrunc (meanQ (diffsZ (mdates "NETFLIX" netflix3)))) ++ " days)")
      ∈ generate_merchant_insights netflix3 :=
  ⟨by decide, by decide, by with_unfolding_all decide,
   C6_recurring_detection.1 netflix3 "NETFLIX" (by decide) (by decide)
     (by with_unfolding_all decide)⟩
